import Mathlib

/-!
Verification of the EQ test generator service (`app.py`, `section_prompts.py`).

The Python source is shallowly embedded below:
* strings are `List Char` (or `String`) values;
* each regular-expression operation used by the source is implemented as a
  recursive scanner with the exact leftmost / greedy / lazy backtracking
  semantics of the concrete pattern it embeds;
* the in-memory job store (a Python dict) is an insertion-ordered association
  list `List (String × Rec)`;
* the filesystem is the list of existing file paths;
* timestamps are integers measured in hours (the only granularity the code
  compares at: `MAX_TEST_AGE_HOURS`);
* code that can raise is modelled with `Except`/`Option`, and the generation
  pipeline returns `PipeOut.exn` where an exception would escape
  `_generate_test_section_by_section` uncaught.

Scanners that skip over a matched region use an explicit fuel argument
(initialised to the input length, which every run keeps sufficient because a
match always consumes at least one character); the fuel-exhausted branches are
unreachable for the wrappers defined here and are chosen to mimic
"no further match".
-/

/-- ASCII whitespace, as matched by Python `\s` (and stripped by `str.strip`)
on the ASCII range: space, tab, newline, carriage return, vertical tab,
form feed. -/
def isSpaceChar (c : Char) : Bool :=
  c = ' ' || c = '\t' || c = '\n' || c = '\r' || c = '\x0b' || c = '\x0c'

/-- ASCII digit, as matched by Python `\d` on the ASCII range. -/
def isDigitChar (c : Char) : Bool :=
  '0' ≤ c && c ≤ '9'

/-- One character of the class `[a-zA-Z0-9\-_]` from
`_save_test_to_file`'s test-id pattern. -/
def isSafeIdChar (c : Char) : Bool :=
  ('a' ≤ c && c ≤ 'z') || ('A' ≤ c && c ≤ 'Z') || isDigitChar c || c = '-' || c = '_'

/-- Python `str.strip()` (ASCII whitespace). -/
def stripL (l : List Char) : List Char :=
  ((l.dropWhile isSpaceChar).reverse.dropWhile isSpaceChar).reverse

/-- Drop a literal pattern from the head of the input (case sensitive);
`none` when the input does not start with the pattern. -/
def stripPre : List Char → List Char → Option (List Char)
  | [], l => some l
  | _ :: _, [] => none
  | p :: ps, c :: cs => if c = p then stripPre ps cs else none

/-- Drop a literal pattern from the head of the input, comparing
case-insensitively (Python `re.IGNORECASE`, ASCII). -/
def ciStripPre : List Char → List Char → Option (List Char)
  | [], l => some l
  | _ :: _, [] => none
  | p :: ps, c :: cs => if c.toLower = p.toLower then ciStripPre ps cs else none

/-- Does `pat` occur (contiguously) anywhere in the input? -/
def containsSub : List Char → List Char → Bool
  | pat, [] => pat.isEmpty
  | pat, c :: cs => (stripPre pat (c :: cs)).isSome || containsSub pat cs

/-- Case-sensitive substring test, Python `pat in s`. -/
def substrB (pat : String) (l : List Char) : Bool :=
  containsSub pat.data l

/-! ### Content sanitizer

`app.py` lines 100-102:
```
cleaned = re.sub(r'<think>.*?</think>', '', section_content, flags=re.DOTALL)
cleaned = re.sub(r'<think>.*?</think>', '', cleaned, flags=re.DOTALL)
```
-/

/-- Locate the earliest occurrence of the literal `</think>`:
returns the text before it and the text after it. This is the lazy `.*?`
of the pattern `<think>.*?</think>` under `re.DOTALL`. -/
def findCloseThink : List Char → Option (List Char × List Char)
  | [] => none
  | c :: cs =>
    match stripPre "</think>".data (c :: cs) with
    | some r => some ([], r)
    | none => (findCloseThink cs).map (fun p => (c :: p.1, p.2))

/-- Try to match `<think>.*?</think>` (DOTALL, lazy) at the head of the input;
on success return the remainder after the match. -/
def thinkMatchAt (l : List Char) : Option (List Char) :=
  (stripPre "<think>".data l).bind (fun r => (findCloseThink r).map Prod.snd)

/-- One pass of `re.sub(r'<think>.*?</think>', '', s, flags=re.DOTALL)`:
scan left to right, delete each non-overlapping match, copy other characters. -/
def subThinkAux : Nat → List Char → List Char
  | 0, l => l
  | _ + 1, [] => []
  | fuel + 1, c :: rest =>
    match thinkMatchAt (c :: rest) with
    | some r => subThinkAux fuel r
    | none => c :: subThinkAux fuel rest

/-- One `re.sub(r'<think>.*?</think>', '', s, flags=re.DOTALL)` pass. -/
def subThink (l : List Char) : List Char :=
  subThinkAux l.length l

/-- The content sanitizer of `_generate_test_section_by_section`
(lines 100-102): the substitution applied twice. -/
def clean_section (l : List Char) : List Char :=
  subThink (subThink l)

/-- Does `<think>.*?</think>` match anywhere in the input?
(`true` iff the `re.sub` pass would change anything.) -/
def hasThink : List Char → Bool
  | [] => false
  | c :: rest => (thinkMatchAt (c :: rest)).isSome || hasThink rest

/-! ### Schema validator scanners

`_validate_test_schema` (app.py lines 222-319) uses four regular
expressions; each is embedded below with the exact semantics of the concrete
pattern (leftmost match, greedy `\s+`/`[^\n]+`/`.+` with backtracking,
lazy `.*?` bounded by a lookahead or `\Z`).
-/

/-- Backtracking search used for a trailing `\s+[^\n]+` (equivalently
`\s+.+` without DOTALL): given an input whose whitespace run has length
`wlen`, find the largest `j` with `1 ≤ j ≤ wlen` such that the character at
index `j` exists and is not a newline (`\s+` takes `j` characters, the
non-newline part starts at `j`). Tries `j = wlen, wlen-1, ..., 1`. -/
def findSplitAux (l : List Char) : Nat → Option Nat
  | 0 => none
  | j + 1 =>
    match l.get? (j + 1) with
    | some c => if c = '\n' then findSplitAux l j else some (j + 1)
    | none => findSplitAux l j

/-- Match `\s+[^\n]+` (greedy, with regex backtracking) at the head of the
input; on success return the matched text and the remainder. -/
def matchWsLine (l : List Char) : Option (List Char × List Char) :=
  let w := l.takeWhile isSpaceChar
  if w.isEmpty then none
  else
    match findSplitAux l w.length with
    | none => none
    | some j =>
      let rest0 := l.drop j
      some (l.take j ++ rest0.takeWhile (fun c => decide (c ≠ '\n')),
            rest0.dropWhile (fun c => decide (c ≠ '\n')))

/-- Match the branch-header pattern `(Branch\s+\d:\s+[^\n]+)`
(app.py line 236) at the head of the input; on success return the matched
header text and the remainder. -/
def matchBranchHeader (l : List Char) : Option (List Char × List Char) :=
  match stripPre "Branch".data l with
  | none => none
  | some r1 =>
    let w := r1.takeWhile isSpaceChar
    if w.isEmpty then none
    else
      match r1.drop w.length with
      | d :: r2 =>
        if isDigitChar d then
          match r2 with
          | ':' :: r3 =>
            match matchWsLine r3 with
            | some p => some ("Branch".data ++ w ++ d :: ':' :: p.1, p.2)
            | none => none
          | _ => none
        else none
      | [] => none

/-- `re.split` with the capturing branch-header pattern: the result
interleaves the text pieces with the captured headers,
`[before, header1, between1, header2, ..., after]`. -/
def branchSplitAux : Nat → List Char → List Char → List (List Char)
  | 0, l, acc => [acc.reverse ++ l]
  | _ + 1, [], acc => [acc.reverse]
  | fuel + 1, c :: rest, acc =>
    match matchBranchHeader (c :: rest) with
    | some p => acc.reverse :: p.1 :: branchSplitAux fuel p.2 []
    | none => branchSplitAux fuel rest (c :: acc)

/-- `re.split(r"(Branch\s+\d:\s+[^\n]+)", content)` (app.py line 237). -/
def branchSplit (l : List Char) : List (List Char) :=
  branchSplitAux l.length l []

/-- The loop of app.py lines 249-252: take the split pieces after the first
as (header, body) pairs, stripping the header; a trailing header with no
following piece gets the empty body. -/
def pairUp : List (List Char) → List (List Char × List Char)
  | [] => []
  | [h] => [(stripL h, [])]
  | h :: b :: rest => (stripL h, b) :: pairUp rest

/-- The `branches_found` list of `_validate_test_schema`. -/
def branchesFound (content : List Char) : List (List Char × List Char) :=
  pairUp ((branchSplit content).drop 1)

/-- The lookahead `(?=(?:\nQuestion\s+\d+)|\Z)` of the question pattern
(app.py lines 265-268), case-insensitive: holds at end of input, or at a
newline followed by `Question`, one or more whitespace and a digit. -/
def lookQ (l : List Char) : Bool :=
  match l with
  | [] => true
  | c :: r =>
    if c = '\n' then
      match ciStripPre "question".data r with
      | none => false
      | some r2 =>
        let v := r2.takeWhile isSpaceChar
        if v.isEmpty then false
        else
          match r2.drop v.length with
          | d :: _ => isDigitChar d
          | [] => false
    else false

/-- The lazy group `(.*?)` of the question pattern under DOTALL: the shortest
prefix whose cut point satisfies the lookahead; returns (group, remainder). -/
def qBody : List Char → List Char × List Char
  | [] => ([], [])
  | c :: r =>
    if lookQ (c :: r) then ([], c :: r)
    else
      let p := qBody r
      (c :: p.1, p.2)

/-- Match `Question\s+(\d+)\s*(.*?)(?=(?:\nQuestion\s+\d+)|\Z)`
(DOTALL, IGNORECASE) at the head of the input; on success return
(group 1 digits, group 2 block, remainder after the match). -/
def qMatchAt (l : List Char) : Option (List Char × List Char × List Char) :=
  match ciStripPre "question".data l with
  | none => none
  | some r1 =>
    let w := r1.takeWhile isSpaceChar
    if w.isEmpty then none
    else
      let r2 := r1.drop w.length
      let ds := r2.takeWhile isDigitChar
      if ds.isEmpty then none
      else
        let r3 := r2.drop ds.length
        let q0 := r3.drop (r3.takeWhile isSpaceChar).length
        let p := qBody q0
        some (ds, p.1, p.2)

/-- `re.findall` scan for the question pattern: leftmost non-overlapping
matches, resuming at each match end (the lookahead is zero-width). -/
def qScanAux : Nat → List Char → List (List Char × List Char)
  | 0, _ => []
  | _ + 1, [] => []
  | fuel + 1, c :: rest =>
    match qMatchAt (c :: rest) with
    | some (d, g, r) => (d, g) :: qScanAux fuel r
    | none => qScanAux fuel rest

/-- `question_pattern.findall(body)` (app.py line 269). -/
def qScan (l : List Char) : List (List Char × List Char) :=
  qScanAux l.length l

/-- Match `[A-E]\)\s+.+` at the head of the input (the option-line pattern of
app.py line 292 minus its `^` anchor, which the scanner below enforces). -/
def matchOptionAt (l : List Char) : Option (List Char × List Char) :=
  match l with
  | c :: ')' :: r =>
    if 'A' ≤ c ∧ c ≤ 'E' then
      match matchWsLine r with
      | some p => some (c :: ')' :: p.1, p.2)
      | none => none
    else none
  | _ => none

/-- `re.findall(r"^[A-E]\)\s+.+", block, flags=re.MULTILINE)`: matches may
start only at the beginning of the input or right after a newline; after a
match (which never ends in a newline) scanning resumes mid-line. -/
def optionsScanAux : Nat → List Char → Bool → List (List Char)
  | 0, _, _ => []
  | _ + 1, [], _ => []
  | fuel + 1, c :: rest, atStart =>
    if atStart then
      match matchOptionAt (c :: rest) with
      | some p => p.1 :: optionsScanAux fuel p.2 false
      | none => optionsScanAux fuel rest (decide (c = '\n'))
    else optionsScanAux fuel rest (decide (c = '\n'))

/-- The `options` list of `_validate_test_schema` (app.py line 292). -/
def optionsScan (l : List Char) : List (List Char) :=
  optionsScanAux l.length l true

/-- The lazy group `(.*?)` of the scores pattern
`Expert\s+Consensus\s+Scores:(.*?)(?:\n{2,}|\Z)` under DOTALL: the shortest
prefix ending at two consecutive newlines or at the end of the input. -/
def ecBody : List Char → List Char
  | [] => []
  | '\n' :: '\n' :: _ => []
  | c :: r => c :: ecBody r

/-- Match the scores pattern at the head of the input (IGNORECASE);
on success return group 1. -/
def ecMatchAt (l : List Char) : Option (List Char) :=
  match ciStripPre "expert".data l with
  | none => none
  | some r1 =>
    let w1 := r1.takeWhile isSpaceChar
    if w1.isEmpty then none
    else
      match ciStripPre "consensus".data (r1.drop w1.length) with
      | none => none
      | some r2 =>
        let w2 := r2.takeWhile isSpaceChar
        if w2.isEmpty then none
        else
          match ciStripPre "scores:".data (r2.drop w2.length) with
          | none => none
          | some r3 => some (ecBody r3)

/-- `re.search` for the scores pattern: group 1 of the leftmost match
(app.py lines 303-308). -/
def ecSearch : List Char → Option (List Char)
  | [] => none
  | c :: r =>
    match ecMatchAt (c :: r) with
    | some g => some g
    | none => ecSearch r

/-- `option_line.split(")", 1)[0].strip()` (app.py line 311). -/
def optionLetter (line : List Char) : List Char :=
  stripL (line.takeWhile (fun c => decide (c ≠ ')')))

/-- Lexicographic order on strings-as-char-lists (Python `<` on `str`,
restricted to what `sorted` needs). -/
def strLt : List Char → List Char → Bool
  | [], [] => false
  | [], _ :: _ => true
  | _ :: _, [] => false
  | a :: as, b :: bs => if a < b then true else if b < a then false else strLt as bs

/-- Insertion step of an insertion sort by `strLt`. -/
def insertStr (x : List Char) : List (List Char) → List (List Char)
  | [] => [x]
  | y :: ys => if strLt x y then x :: y :: ys else y :: insertStr x ys

/-- `sorted(...)` on a list of strings. -/
def sortStrs : List (List Char) → List (List Char)
  | [] => []
  | x :: xs => insertStr x (sortStrs xs)

/-- Helper of `dedupStrs`: keep values not seen before. -/
def dedupAux : List (List Char) → List (List Char) → List (List Char)
  | _, [] => []
  | seen, x :: xs => if x ∈ seen then dedupAux seen xs else x :: dedupAux (x :: seen) xs

/-- `set(...)` before sorting: keep the first occurrence of each value. -/
def dedupStrs (l : List (List Char)) : List (List Char) :=
  dedupAux [] l

/-- `', '.join(...)` on the sorted, de-duplicated missing letters. -/
def joinComma (l : List (List Char)) : String :=
  String.intercalate ", " (l.map String.mk)

/-- `flatMap`, written out so its membership lemma is ours. -/
def flatMapErrs : List α → (α → List String) → List String
  | [], _ => []
  | a :: as, f => f a ++ flatMapErrs as f

/-- The `missing_scores` list of app.py lines 309-313: the option letters of
the extracted option lines that do not occur in the scores section. -/
def missingScores (options : List (List Char)) (ss : List Char) : List (List Char) :=
  (options.map optionLetter).filter
    (fun lt => !lt.isEmpty && !(containsSub lt ss))

/-- The per-question checks of `_validate_test_schema`
(app.py lines 277-317), for one (stripped) question block. -/
def checkQuestion (e : List Char) (qn : List Char) (blk : List Char) : List String :=
  let e1 :=
    if substrB "Scenario & Question:" blk then []
    else [String.mk e ++ " Question " ++ String.mk qn ++
      ": Missing \x27Scenario & Question\x27 section"]
  if substrB "Options:" blk = false then
    e1 ++ [String.mk e ++ " Question " ++ String.mk qn ++ ": Missing \x27Options\x27 section"]
  else
    let options := optionsScan blk
    let e2 :=
      if options.length < 4 then
        [String.mk e ++ " Question " ++ String.mk qn ++
          ": Expected at least 4 options but found " ++ toString options.length]
      else []
    let e3 :=
      if substrB "Expert Consensus Scores:" blk = false then
        [String.mk e ++ " Question " ++ String.mk qn ++
          ": Missing \x27Expert Consensus Scores\x27 section"]
      else
        let ss := (ecSearch blk).getD []
        let missing := missingScores options ss
        if missing.isEmpty then []
        else [String.mk e ++ " Question " ++ String.mk qn ++
          ": Missing scores for options " ++ joinComma (sortStrs (dedupStrs missing))]
    e1 ++ e2 ++ e3

/-- The per-branch checks of `_validate_test_schema`
(app.py lines 259-317), for one expected title and one found
(header, body) pair. -/
def checkBranch (e : List Char) (h : List Char) (body : List Char) : List String :=
  let eh :=
    if h = e then []
    else ["Expected branch header \x27" ++ String.mk e ++ "\x27 but found \x27" ++
      String.mk h ++ "\x27"]
  let qs := qScan body
  if qs.length = 3 then
    eh ++ flatMapErrs qs (fun q => checkQuestion e (stripL q.1) (stripL q.2))
  else
    eh ++ [String.mk e ++ ": Expected 3 questions but found " ++ toString qs.length]

/-- The `expected_branches` list (app.py lines 229-234). -/
def expected_branches : List (List Char) :=
  ["Branch 1: Perceiving Emotions".data,
   "Branch 2: Using Emotions to Facilitate Thought".data,
   "Branch 3: Understanding Emotions".data,
   "Branch 4: Managing Emotions".data]

/-- `EQTestGenerator._validate_test_schema` (app.py lines 222-319):
returns `(ok, defects)`. -/
def validate_test_schema (content : List Char) : Bool × List String :=
  if (stripL content).isEmpty then (false, ["Test content is empty"])
  else
    let sections := branchSplit content
    if sections.length < 2 then (false, ["No branches found in generated content"])
    else
      let preface := stripL (sections.headD [])
      let e0 :=
        if preface.isEmpty then []
        else ["Unexpected text found before the first branch"]
      let bf := branchesFound content
      let e1 :=
        if bf.length = expected_branches.length then []
        else ["Expected " ++ toString expected_branches.length ++
          " branches but found " ++ toString bf.length]
      let errs := e0 ++ e1 ++
        flatMapErrs (expected_branches.zip bf) (fun p => checkBranch p.1 p.2.1 p.2.2)
      (errs.isEmpty, errs)

/-! ### Job store and records

`tests_storage` is a Python dict; it is embedded as an insertion-ordered
association list with (in the running service) pairwise-distinct keys.
Timestamps (`created_at`, `completed_at`, `datetime.now()`) are integers in
hours, the unit of `MAX_TEST_AGE_HOURS`.
-/

/-- One job record of `tests_storage`. Fields that some code paths leave
absent from the dict (`completed_at`, `file_path`, `error`) are `Option`s. -/
structure Rec where
  test_id : String
  age : Int
  status : String
  progress : String
  current_section : String
  provider : String
  created_at : Int
  completed_at : Option Int := none
  file_path : Option String := none
  error : Option String := none
deriving DecidableEq, Repr

/-- The in-memory `tests_storage` map. -/
abbrev Store := List (String × Rec)

/-- Dict lookup, `tests_storage.get(test_id)`. -/
def lookupRec : Store → String → Option Rec
  | [], _ => none
  | p :: rest, tid => if p.1 = tid then some p.2 else lookupRec rest tid

/-- `if test_id in tests_storage: tests_storage[test_id].update(...)` —
the guarded in-place update used by the per-branch progress update and the
validation-failure update. -/
def updateChecked (store : Store) (tid : String) (f : Rec → Rec) : Store :=
  if (lookupRec store tid).isSome then
    store.map (fun p => if p.1 = tid then (p.1, f p.2) else p)
  else store

/-- `tests_storage[test_id].update(...)` with no presence check: `none`
models the `KeyError` raised when the key is absent. -/
def updateRequired (store : Store) (tid : String) (f : Rec → Rec) : Option Store :=
  if (lookupRec store tid).isSome then
    some (store.map (fun p => if p.1 = tid then (p.1, f p.2) else p))
  else none

/-- Dict assignment `tests_storage[test_id] = rec`: overwrite when present,
append (insertion order) when new. -/
def storeInsert (store : Store) (tid : String) (r : Rec) : Store :=
  if (lookupRec store tid).isSome then
    store.map (fun p => if p.1 = tid then (p.1, r) else p)
  else store ++ [(tid, r)]

/-! ### Cleanup (`_cleanup_old_tests`, app.py lines 346-385) -/

/-- `MAX_TEST_AGE_HOURS = 24` (app.py line 43). -/
def MAX_TEST_AGE_HOURS : Int := 24

/-- `MAX_STORED_TESTS = 100` (app.py line 44). -/
def MAX_STORED_TESTS : Nat := 100

/-- Stable insertion (by strict `<` on `created_at`) used to embed Python's
stable `sorted(..., key=created_at)`. -/
def ordInsertRec (x : String × Rec) : Store → Store
  | [] => [x]
  | y :: ys =>
    if x.2.created_at < y.2.created_at then x :: y :: ys else y :: ordInsertRec x ys

/-- `sorted(tests_storage.items(), key=created_at)` (app.py lines 371-374). -/
def sortByCreated : Store → Store
  | [] => []
  | x :: xs => ordInsertRec x (sortByCreated xs)

/-- The sort key order: earlier `created_at` first. -/
def keyLE (a b : String × Rec) : Prop :=
  a.2.created_at ≤ b.2.created_at

/-- The per-record file removal of `_cleanup_old_tests` (lines 360-366 and
378-384): delete the record's file if the record was found, has a
`file_path` and the path exists (removal failures are swallowed, and erasing
an absent path is a no-op). -/
def delFile (fs : List String) : Option Rec → List String
  | some r =>
    match r.file_path with
    | some fp => fs.erase fp
    | none => fs
  | none => fs

/-- The deletion loop shared by both phases of `_cleanup_old_tests`
(lines 358-367 and 376-385): for each id in order, look its record up,
best-effort-delete its file if it has one, then delete the record. -/
def delOld : List String → Store → List String → Store × List String
  | [], store, fs => (store, fs)
  | tid :: rest, store, fs =>
    delOld rest (store.filter (fun p => !decide (p.1 = tid)))
      (delFile fs (lookupRec store tid))

/-- `EQTestGenerator._cleanup_old_tests` (app.py lines 346-385), acting on
the store and the set of existing files; `now` is `datetime.now()`.
Phase 1 removes every record older than the retention cutoff;
phase 2, when more than `MAX_STORED_TESTS` records remain, removes the
oldest (by `created_at`) until exactly `MAX_STORED_TESTS` remain. -/
def cleanup_old_tests (now : Int) (store : Store) (fs : List String) : Store × List String :=
  let cutoff := now - MAX_TEST_AGE_HOURS
  let old_ids := (store.filter (fun p => decide (p.2.created_at < cutoff))).map Prod.fst
  let r1 := delOld old_ids store fs
  if r1.1.length > MAX_STORED_TESTS then
    let sorted := sortByCreated r1.1
    let excess := r1.1.length - MAX_STORED_TESTS
    let victims := (sorted.take excess).map Prod.fst
    delOld victims r1.1 r1.2
  else r1

/-! ### Saving (`_save_test_to_file`, app.py lines 321-344) -/

/-- `re.match(r'^[a-zA-Z0-9\-_]+', test_id) is not None`: with no `$`
anchor and `re.match`, this only requires the identifier to start with at
least one character from the class. -/
def test_id_pattern_ok (tid : String) : Bool :=
  match tid.data with
  | [] => false
  | c :: _ => isSafeIdChar c

/-- The path built at app.py lines 332-338:
`tests/<age>/<date>_<test_id[:8]>.txt`. -/
def save_path (age : Int) (tid : String) (dateStr : String) : String :=
  "tests/" ++ toString age ++ "/" ++ dateStr ++ "_" ++ String.mk (tid.data.take 8) ++ ".txt"

/-- `EQTestGenerator._save_test_to_file` (app.py lines 321-344):
`.error` models the `ValueError`s; on success returns the path the content
is written to. (`dateStr` stands for `datetime.now().strftime('%d_%m_%Y')`;
the content itself does not affect the result.) -/
def save_test_to_file (_content : List Char) (age : Int) (tid : String)
    (dateStr : String) : Except String String :=
  if test_id_pattern_ok tid = false then .error "Invalid test_id format"
  else if ¬ (12 ≤ age ∧ age ≤ 18) then .error "Invalid age parameter"
  else .ok (save_path age tid dateStr)

/-- Writing a file: the path now exists. -/
def insertFile (fs : List String) (p : String) : List String :=
  if p ∈ fs then fs else fs ++ [p]

/-! ### Generation pipeline (`_generate_test_section_by_section`,
app.py lines 54-169)

The two backends (`_call_ollama`, `_call_deepseek_cloud`) are opaque
network calls; the environment is modelled by `calls : Nat → CallResult`
giving the outcome of the i-th per-branch backend call (a raised
transport/format error, or the returned completion text). The prompt passed
to each call (`section_prompts[section_name]`, from `get_section_prompts`)
does not influence the pipeline's own control flow.
-/

/-- Outcome of one backend call: a returned completion, or a raised
`requests`/format exception with its message. -/
inductive CallResult where
  | ok (content : String)
  | error (msg : String)
deriving DecidableEq, Repr

/-- The result dict returned by `_generate_test_section_by_section`;
keys absent from a given return are `none`. -/
structure GenResult where
  success : Bool
  error : Option String := none
  test_id : Option String := none
  message : Option String := none
  file_path : Option String := none
  provider : Option String := none
deriving DecidableEq, Repr

/-- Outcome of running the pipeline: a returned result dict together with
the final store and filesystem, or an exception escaping the function
(`KeyError` from the unguarded completion update, `ValueError` from
`_save_test_to_file`). -/
inductive PipeOut where
  | ret (result : GenResult) (store : Store) (files : List String)
  | exn (store : Store) (files : List String)
deriving DecidableEq, Repr

/-- `section_order` (app.py lines 70-72). -/
def section_order : List String :=
  ["branch_1", "branch_2", "branch_3", "branch_4"]

/-- The `branch_names` dict (app.py lines 110-115). -/
def branch_names : List (String × String) :=
  [("branch_1", "Perceiving Emotions"),
   ("branch_2", "Using Emotions to Facilitate Thought"),
   ("branch_3", "Understanding Emotions"),
   ("branch_4", "Managing Emotions")]

/-- Assoc-list lookup with default, `branch_names.get(section_name, section_name)`. -/
def lookupD : List (String × String) → String → String → String
  | [], _, d => d
  | p :: rest, k, d => if p.1 = k then p.2 else lookupD rest k d

/-- `branch_names.get(section_name, section_name)` (app.py line 116). -/
def branchDisplay (name : String) : String :=
  lookupD branch_names name name

/-- The per-branch loop of the pipeline (app.py lines 78-122): call the
backend, reject raised errors and empty completions (returning the failure
dict without touching the store), sanitize, accumulate, and update progress
when the job id is still stored. -/
def genLoop (tid provider : String) (calls : Nat → CallResult) :
    List String → Nat → List Char → Store → Except (GenResult × Store) (List Char × Store)
  | [], _, acc, store => .ok (acc, store)
  | name :: rest, i, acc, store =>
    match calls i with
    | .error e =>
      .error ({ success := false,
                error := some ("Failed to generate section " ++ name ++ ": " ++ e) }, store)
    | .ok content =>
      if content = "" then
        .error ({ success := false,
                  error := some ("Failed to generate section: " ++ name) }, store)
      else
        let acc2 := acc ++ clean_section content.data ++ ('\n' :: '\n' :: [])
        let store2 := updateChecked store tid (fun r =>
          { r with status := "generating",
                   progress := "Completed branch " ++ toString (i + 1) ++ "/" ++
                     toString section_order.length ++ ": " ++ branchDisplay name,
                   current_section := name,
                   provider := provider })
        genLoop tid provider calls rest (i + 1) acc2 store2

/-- Project the store out of a loop outcome. -/
def loopStore : Except (GenResult × Store) (List Char × Store) → Store
  | .error p => p.2
  | .ok p => p.2

/-- The error message of app.py lines 127-129. -/
def validationMsg (details : List String) : String :=
  "Schema validation failed" ++
    (if details.isEmpty then "" else ": " ++ String.intercalate "; " details)

/-- The failure dict returned at app.py lines 139-144. -/
def validationFailResult (tid provider : String) (details : List String) : GenResult :=
  { success := false, test_id := some tid,
    error := some (validationMsg details), provider := some provider }

/-- The tail of the pipeline after the branch loop (app.py lines 124-169):
validate the accumulated content; on schema failure mark the job failed
(when still stored) and return the failure dict; otherwise save the file
(`ValueError` escapes as `exn`), apply the unguarded completed-update
(`KeyError` escapes as `exn` — the file is already written), then run
cleanup and return the success dict. -/
def finishJob (content : List Char) (age : Int) (tid provider : String) (now : Int)
    (dateStr : String) (store : Store) (fs : List String) : PipeOut :=
  let v := validate_test_schema content
  if v.1 = false then
    let store2 := updateChecked store tid (fun r =>
      { r with status := "failed", progress := "validation_failed",
               current_section := "validation",
               error := some (validationMsg v.2), provider := provider })
    .ret (validationFailResult tid provider v.2) store2 fs
  else
    match save_test_to_file content age tid dateStr with
    | .error _ => .exn store fs
    | .ok filepath =>
      let fs2 := insertFile fs filepath
      match updateRequired store tid (fun r =>
        { r with status := "completed", progress := "completed",
                 current_section := "completed", file_path := some filepath,
                 completed_at := some now, provider := provider }) with
      | none => .exn store fs2
      | some store2 =>
        let cl := cleanup_old_tests now store2 fs2
        .ret { success := true, test_id := some tid,
               message := some "Test generated successfully",
               file_path := some filepath, provider := some provider } cl.1 cl.2

/-- `EQTestGenerator._generate_test_section_by_section`
(app.py lines 54-169). -/
def generate_test_section_by_section (age : Int) (tid provider : String)
    (calls : Nat → CallResult) (now : Int) (dateStr : String)
    (store : Store) (fs : List String) : PipeOut :=
  if ¬ (12 ≤ age ∧ age ≤ 18) then
    .ret { success := false, error := some "Age must be between 12 and 18" } store fs
  else
    match genLoop tid provider calls section_order 0 [] store with
    | .error p => .ret p.1 p.2 fs
    | .ok p => finishJob p.1 age tid provider now dateStr p.2 fs

/-! ### Submission endpoint (`generate_test`, app.py lines 420-469) -/

/-- The decoded JSON request body; `none` fields were omitted. -/
structure ReqBody where
  age : Option Int := none
  provider : Option String := none
deriving DecidableEq, Repr

/-- An HTTP-level response: a structured error with status code, or the
success payload of app.py lines 462-466. -/
inductive Resp where
  | err (msg : String) (code : Nat)
  | ok (test_id status provider : String)
deriving DecidableEq, Repr

/-- What the submission handler did: its response, the store afterwards, and
the task handed to the worker pool (`executor.submit(..., age, test_id,
provider)`), if any — backend calls happen only inside that task. -/
structure EndpointResult where
  response : Resp
  store : Store
  submitted : Option (Int × String × String)
deriving DecidableEq, Repr

/-- Python `str.lower()` (ASCII). -/
def strLower (s : String) : String :=
  String.mk (s.data.map Char.toLower)

/-- The record created at app.py lines 446-454. -/
def newJobRecord (tid : String) (age : Int) (provider : String) (now : Int) : Rec :=
  { test_id := tid, age := age, status := "generating", progress := "0/4",
    current_section := "initializing", provider := provider, created_at := now }

/-- The `/generate` handler `generate_test` (app.py lines 420-469).
`PROVIDER` and `DEEPSEEK_API_KEY` are the environment configuration;
`newId` is the fresh `uuid.uuid4()` string; `now` is `datetime.now()`. -/
def generate_test (data : ReqBody) (PROVIDER DEEPSEEK_API_KEY : String)
    (newId : String) (now : Int) (store : Store) : EndpointResult :=
  let age := data.age.getD 15
  let provider := strLower (data.provider.getD PROVIDER)
  if ¬ (12 ≤ age ∧ age ≤ 18) then
    { response := .err "Age must be between 12 and 18" 400,
      store := store, submitted := none }
  else if ¬ (provider = "ollama" ∨ provider = "deepseek") then
    { response := .err "Provider must be either \x27ollama\x27 or \x27deepseek\x27" 400,
      store := store, submitted := none }
  else if provider = "deepseek" ∧ DEEPSEEK_API_KEY = "" then
    { response := .err
        "DEEPSEEK_API_KEY not configured. Please set it in your environment variables." 400,
      store := store, submitted := none }
  else
    { response := .ok newId "generating" provider,
      store := storeInsert store newId (newJobRecord newId age provider now),
      submitted := some (age, newId, provider) }

/-! ### Prompt builder (`get_section_prompts`, section_prompts.py lines 6-364) -/

/-- The five age-adaptation strings plus the age-category label chosen by the
`if 12 <= age <= 14` / `else` tiers of `get_section_prompts`. -/
structure AgeTier where
  age_category : String
  emotion_complexity : String
  social_scenarios : String
  tasks : String
  progressions : String
  scenarios : String
deriving DecidableEq, Repr

/-- The 12-14 tier (section_prompts.py lines 11-17). -/
def tier_12_14 : AgeTier :=
  { age_category := "12-14",
    emotion_complexity := "clear, basic emotions (happy, sad, angry, scared, surprised)",
    social_scenarios := "simple social scenarios (school, friends, family)",
    tasks := "simple tasks (doing homework, making friends, playing sports)",
    progressions := "simple progressions (sadness → crying, annoyance → anger), obvious causes",
    scenarios := "School conflicts, peer pressure, test anxiety, friendship problems, parental conflicts" }

/-- The 15-18 tier (section_prompts.py lines 18-24), used for every age not
in 12-14. -/
def tier_15_18 : AgeTier :=
  { age_category := "15-18",
    emotion_complexity := "complex/mixed emotions (ambivalence, nostalgia, resignation, contempt)",
    social_scenarios := "nuanced social situations (romantic relationships, workplace, ethical dilemmas)",
    tasks := "complex tasks (long-term planning, leadership, critical analysis, career decisions)",
    progressions := "complex progressions (disappointment → resentment → bitterness), subtle triggers, mixed emotions",
    scenarios := "Romantic relationships, identity issues, future anxiety, complex moral dilemmas, workplace stress" }
/-- The `branch_1` prompt f-string of `get_section_prompts`. -/
def branch_1_text (ageS : String) (t : AgeTier) : String :=
  "
You are an expert psychometric test designer specializing in emotional intelligence assessment for adolescents. Generate a comprehensive ability-based emotional intelligence (EQ) test section suitable for "
  ++ ageS
  ++ "-year-old test takers following these exact specifications below:

Branch 1: Perceiving Emotions (3 questions)

Skill Measured: Identifying and recognizing emotions in facial expressions, body language, tone, and situations.

Question Types:
- Face/image analysis: Describe facial expressions and ask which emotions are present (provide multiple emotions to rate)
- Scenario-based emotion identification: Present a situation and ask what emotions the person is likely feeling
- Tone/context interpretation: Given a statement or context, identify underlying emotions

Age Adaptation:
- For "
  ++ t.age_category
  ++ " year olds: Use "
  ++ t.emotion_complexity
  ++ "; "
  ++ t.social_scenarios
  ++ "

Expert Consensus Scoring: Rate each emotion option from 1-5 based on how accurately it reflects the presented stimulus
- Most accurate emotion identification = 5 points
- Partially accurate = 3-4 points
- Incorrect/contradictory = 1 point

Output Format Requirements:

1. Branch Number: \"Branch 1: Perceiving Emotions\"

For each of the 3 questions, provide:

2. Question Number

3. Scenario/Stimulus & Question: Clear description or scenario (age-appropriate for "
  ++ ageS
  ++ " year old). Question based on the scenario.

4. 4-5 Answer Options: Multiple choice options (A, B, C, D, E)

5. Expert Consensus Scores: An Answer-Score mapping, Assign 1-5 points to each option based on correctness 


Example Format:

Branch 1: Perceiving Emotions

Question 1

Scenario & Question: [Age "
  ++ ageS
  ++ "] Sarah walked into the cafeteria and saw her friend group laughing together at a table. When she approached, they suddenly stopped talking and looked at each other. One friend said, \"Oh hey, Sarah,\" in a flat tone. Which emotions is Sarah most likely experiencing in this moment?

Options:
A) Excitement and joy
B) Confusion and hurt
C) Anger and aggression
D) Indifference and calm
E) Mild curiosity

Expert Consensus Scores: A: 1, B: 5, C: 2, D: 1, E: 3

Question 2

Scenario & Question: [Age "
  ++ ageS
  ++ "] Look at the image of the person. Their eyebrows are pulled slightly together and upward, their mouth is turned down at the corners, and they are looking down and away. Which of the following emotions is this person most likely feeling?

Options:
A) Happiness and excitement
B) Disgust and anger
C) Sadness and disappointment
D) Fear and surprise
E) Confidence and pride

Expert Consensus Scores: A: 1, B: 2, C: 5, D: 3, E: 1

Question 3

Scenario & Question: [Age "
  ++ ageS
  ++ "] Alex spent weeks preparing a solo for the school talent show. Right after finishing the performance, the audience is silent for a moment before starting to clap. Alex walks off the stage, takes a deep breath, and says to a friend, \"Well, I\x27m just glad it\x27s over,\" while avoiding eye contact. Which emotions is Alex most likely experiencing?

Options:
A) Pure relief and satisfaction
B) Disappointment and anxiety about their performance
C) Boredom and indifference
D) Anger towards the audience
E) Pride and excitement for the next opportunity

Expert Consensus Scores: A: 2, B: 5, C: 1, D: 1, E: 3
"

/-- The `branch_2` prompt f-string of `get_section_prompts`. -/
def branch_2_text (ageS : String) (t : AgeTier) : String :=
  "
You are an expert psychometric test designer specializing in emotional intelligence assessment for adolescents. Generate a comprehensive ability-based emotional intelligence (EQ) test section suitable for "
  ++ ageS
  ++ "-year-old test takers following these exact specifications below:

Branch 2: Using Emotions to Facilitate Thought (3 questions)

Skill Measured: Understanding which emotions are helpful for specific tasks and using emotions strategically.

Question Types:
- Task-emotion matching: \"What emotion would be most helpful for [specific task]?\"
- Mood optimization: \"If you want to [achieve goal], which emotional state would help most?\"
- Emotional leverage: Scenarios where emotions can enhance thinking or problem-solving

Common Tasks to Include:
- Creative brainstorming
- Detail-oriented work
- Making careful decisions
- Connecting with others
- Learning new material

Age Adaptation:
- For "
  ++ t.age_category
  ++ " year olds: Use "
  ++ t.tasks
  ++ "

Expert Consensus Scoring: 
- Most facilitating emotion = 5 points
- Somewhat helpful = 3-4 points
- Neutral/unhelpful = 2 points
- Counterproductive = 1 point

Output Format Requirements:
For each of the 3 questions, provide:

1. Branch Number: \"Branch 2: Using Emotions to Facilitate Thought\"

For each of the 3 questions, provide:

2. Question Number

3. Scenario/Stimulus & Question: Clear description or scenario (age-appropriate for "
  ++ ageS
  ++ " year old). Question based on the scenario.

4. 4-5 Answer Options: Multiple choice options (A, B, C, D, E)

5. Expert Consensus Scores: An Answer-Score mapping, Assign 1-5 points to each option based on correctness

---

Example Format:

Branch 2: Using Emotions to Facilitate Thought
Question 1

Scenario & Question: [Age "
  ++ ageS
  ++ "] You have a big, open-ended project for a class where you need to come up with a completely original idea and presentation. You are in the initial \"brainstorming\" phase, trying to generate as many creative possibilities as you can. Which emotional state would be MOST helpful for this specific part of the task?

Options:
A) Calm contentment
B) Anxious worry
C) Playful curiosity
D) Serious skepticism
E) Frustrated determination

Expert Consensus Scores: A: 3, B: 1, C: 5, D: 2, E: 1

Question 2

Scenario & Question: [Age "
  ++ ageS
  ++ "] You are about to proofread your application for a summer program you really want to join. This is your final check for any small spelling, grammar, or formatting errors before you hit \"submit.\" Which emotional state would be MOST helpful for ensuring you catch every detail?

Options:
A) Excited enthusiasm
B) Focused calm
C) Confident pride
D) Playful humor
E) Impatient eagerness

Expert Consensus Scores: A: 2, B: 5, C: 3, D: 1, E: 1

Question 3

Scenario & Question: [Age "
  ++ ageS
  ++ "] You had a minor disagreement with a friend, and there\x27s some lingering tension. You\x27ve decided to approach them to talk it out and clear the air. Your goal is to reconnect and understand their perspective. Which emotional approach would be MOST helpful in facilitating this conversation?

Options:
A) Defensive, to protect your own feelings
B) Empathetic and open-minded
C) Apologetic, even if you\x27re not sure what you did wrong
D) Lighthearted, to try and joke about the situation immediately
E) Neutral and unemotional

Expert Consensus Scores: A: 1, B: 5, C: 3, D: 2, E: 2

"

/-- The `branch_3` prompt f-string of `get_section_prompts`. -/
def branch_3_text (ageS : String) (t : AgeTier) : String :=
  "
You are an expert psychometric test designer specializing in emotional intelligence assessment for adolescents. Generate a comprehensive ability-based emotional intelligence (EQ) test section suitable for "
  ++ ageS
  ++ "-year-old test takers following these exact specifications below:

Branch 3: Understanding Emotions (3 questions)

Skill Measured: Comprehending how emotions arise, evolve, and combine; understanding emotional cause-and-effect.

Question Types:
- Emotional progression: \"If [initial emotion] continues, what emotion might develop next?\"
- Cause analysis: \"What most likely caused this person to feel [emotion]?\"
- Emotional blends: \"When someone feels [emotion A] and [emotion B] together, this is called [what]?\"
- Intensity scaling: Ordering emotions by intensity (e.g., annoyance → frustration → anger → rage)

Age Adaptation:
- For "
  ++ t.age_category
  ++ " year olds: Use "
  ++ t.progressions
  ++ "

Expert Consensus Scoring: 
- Most accurate progression/cause = 5 points
- Partially correct = 3 points
- Incorrect/illogical = 1 point

Output Format Requirements:

1. Branch Number: \"Branch 3: Understanding Emotions\"

For each of the 3 questions, provide:

2. Question Number

3. Scenario/Stimulus & Question: Clear description or scenario (age-appropriate for "
  ++ ageS
  ++ " year old). Question based on the scenario.

4. 4-5 Answer Options: Multiple choice options (A, B, C, D, E)

5. Expert Consensus Scores: An Answer-Score mapping, Assign 1-5 points to each option based on correctness 

---

Example Format:

Branch 3: Understanding Emotions
Question 1

Scenario & Question: [Age "
  ++ ageS
  ++ "] Alex worked for weeks on a science fair project, putting in extra hours to make it perfect. When the results were announced, Alex did not even place in the top three. If Alex\x27s initial feeling is one of deep disappointment, what is a LIKELY emotion that might follow if they can\x27t process the initial feeling?

Options:
A) Gratitude for the experience
B) Apathy towards science
C) Renewed motivation to try harder
D) Confusion about the judging
E) Increased confidence

Expert Consensus Scores: A: 1, B: 5, C: 3, D: 2, E: 1

Question 2

Scenario & Question: [Age "
  ++ ageS
  ++ "] Jamie suddenly feels a mix of nervousness and excited anticipation, with a racing heart and butterflies in the stomach. What is the MOST likely cause of this blend of emotions?

Options:
A) Forgetting to do a homework assignment
B) Getting a surprise quiz in a difficult class
C) About to perform a solo in the school concert
D) Hearing a loud, unexpected noise
E) Being assigned extra chores at home

Expert Consensus Scores: A: 2, B: 3, C: 5, D: 1, E: 1

Question 3

Scenario & Question: [Age "
  ++ ageS
  ++ "] Consider the following emotions related to anger. Which sequence shows the most accurate progression from the mildest form to the most intense?

Options:
A) Rage -> Frustration -> Annoyance -> Fury
B) Annoyance -> Frustration -> Anger -> Rage
C) Irritation -> Fury -> Resentment -> Annoyance
D) Frustration -> Annoyance -> Rage -> Anger
E) Anger -> Annoyance -> Fury -> Frustration

Expert Consensus Scores: A: 1, B: 5, C: 2, D: 1, E: 1

"

/-- The `branch_4` prompt f-string of `get_section_prompts`. -/
def branch_4_text (ageS : String) (t : AgeTier) : String :=
  "
You are an expert psychometric test designer specializing in emotional intelligence assessment for adolescents. Generate a comprehensive ability-based emotional intelligence (EQ) test section suitable for "
  ++ ageS
  ++ "-year-old test takers following these exact specifications below:

Branch 4: Managing Emotions (3 questions)

Skill Measured: Regulating one\x27s own emotions and managing emotions in relationships effectively.

Question Types:
- Strategy effectiveness: Present a scenario where someone experiences an emotion, then rate various coping strategies
- Interpersonal regulation: How to help someone else manage their emotions
- Self-regulation: Best approaches for managing one\x27s own emotional state in challenging situations

Scenarios Should Include:
- Anxiety/stress management
- Anger/frustration regulation
- Sadness/disappointment coping
- Interpersonal conflict resolution
- Social pressure situations

Age Adaptation:
- For "
  ++ t.age_category
  ++ " year olds: Use scenarios related to "
  ++ t.scenarios
  ++ "

Expert Consensus Scoring: Rate each strategy\x27s effectiveness
- Highly effective (healthy, adaptive, evidence-based) = 5 points
- Moderately effective = 3 points
- Ineffective or counterproductive (avoidance, suppression, aggression) = 1 point

Output Format Requirements:

1. Branch Number: \"Branch 4: Managing Emotions\"

For each of the 3 questions, provide:

2. Question Number

3. Scenario/Stimulus & Question: Clear description or scenario (age-appropriate for "
  ++ ageS
  ++ " year old). Question based on the scenario.

4. 4-5 Answer Options: Multiple choice options (A, B, C, D, E) representing different coping strategies

5. Expert Consensus Scores: Assign 1-5 points to each option based on effectiveness

---

Example Format:

Branch 4: Managing Emotions
Question 1

Scenario & Question: [Age "
  ++ ageS
  ++ "] Sam has an important final exam in one hour. Sam is feeling extremely anxious, with a racing mind and shaky hands. What is the MOST effective strategy for Sam to use in the next 15 minutes to manage this anxiety and get into a better headspace for the test?

Options:
A) Suppress the feelings and try to think about something else entirely.
B) Find a quiet space to do a few minutes of deep breathing and positive self-talk.
C) Cram as much last-minute information as possible to feel more prepared.
D) Complain to friends about how unfair the test is and how anxious you are.
E) Skip the exam to avoid the uncomfortable feeling entirely.

Expert Consensus Scores: A: 2, B: 5, C: 2, D: 1, E: 1

Question 2

Scenario & Question: [Age "
  ++ ageS
  ++ "] Taylor is furious after a teammate repeatedly dropped the ball during a crucial play, causing their team to lose the championship game. Taylor is about to confront the teammate. What is the MOST effective way for Taylor to manage this anger in the moment?

Options:
A) Yell at the teammate immediately to release the anger.
B) Walk away, cool down for 10 minutes, then discuss what happened calmly.
C) Give the teammate the silent treatment for the rest of the day.
D) Immediately post about the teammate\x27s mistake on social media.
E) Bottle up the anger and pretend everything is fine.

Expert Consensus Scores: A: 1, B: 5, C: 1, D: 1, E: 1

Question 3

Scenario & Question: [Age "
  ++ ageS
  ++ "] Your friend Riley is visibly upset and crying after a fight with their parents. Riley says, \"They never listen to me!\" What is the MOST effective way for you to help Riley manage their emotions in this situation?

Options:
A) Tell them to calm down and that it\x27s not a big deal.
B) Immediately offer advice on how to fix the problem.
C) Listen quietly, show you are there for them, and validate their feelings.
D) Change the subject to a funny video to distract them.
E) Agree with them and criticize their parents to show you\x27re on their side.

Expert Consensus Scores: A: 1, B: 2, C: 5, D: 2, E: 1

"
/-- `get_section_prompts(age)` (section_prompts.py lines 6-364): the dict of
the four branch prompts, in insertion order, with the age placeholders
replaced. -/
def get_section_prompts (age : Int) : List (String × String) :=
  let ageS := toString age
  let t := if 12 ≤ age ∧ age ≤ 14 then tier_12_14 else tier_15_18
  [("branch_1", branch_1_text ageS t),
   ("branch_2", branch_2_text ageS t),
   ("branch_3", branch_3_text ageS t),
   ("branch_4", branch_4_text ageS t)]

/-! ### Concrete inputs used by witnesses and counterexamples -/

/-- A generated test body with exactly three branch headers. -/
def threeBranchContent : String :=
  "Branch 1: A\nBranch 2: B\nBranch 3: C"

/-- One question block in the shape the validator accepts, with options A-D
and a scores section covering all four letters. -/
def okQuestion (n : String) : String :=
  "Question " ++ n ++ "\nScenario & Question: s\nOptions:\nA) a\nB) b\nC) c\nD) d\nExpert Consensus Scores: A B C D\n"

/-- A question block whose scores section covers only A, B, C although the
options are A, B, C, D. -/
def missingDQuestion (n : String) : String :=
  "Question " ++ n ++ "\nScenario & Question: s\nOptions:\nA) a\nB) b\nC) c\nD) d\nExpert Consensus Scores: A B C\n"

/-- A single-branch input whose second question's scores section misses D. -/
def missingDContent : String :=
  "Branch 1: Perceiving Emotions\n" ++ okQuestion "1" ++ missingDQuestion "2" ++ okQuestion "3"

/-- A fully well-formed generated test: the four expected branch headers in
order, three complete questions each. -/
def wellFormedContent : String :=
  "Branch 1: Perceiving Emotions\n" ++ okQuestion "1" ++ okQuestion "2" ++ okQuestion "3" ++
  "Branch 2: Using Emotions to Facilitate Thought\n" ++ okQuestion "1" ++ okQuestion "2" ++ okQuestion "3" ++
  "Branch 3: Understanding Emotions\n" ++ okQuestion "1" ++ okQuestion "2" ++ okQuestion "3" ++
  "Branch 4: Managing Emotions\n" ++ okQuestion "1" ++ okQuestion "2" ++ okQuestion "3"

/-- A job record sitting in the store in the `generating` state. -/
def generatingRec : Rec :=
  { test_id := "t1", age := 15, status := "generating", progress := "0/4",
    current_section := "initializing", provider := "ollama", created_at := 0 }

/-- The failure dict the pipeline returns when the first backend call raises
`boom`. -/
def boomFailResult : GenResult :=
  { success := false, error := some "Failed to generate section branch_1: boom" }

/-! ### Lemmas about the sanitizer -/

theorem stripPre_eq (p : List Char) : ∀ l r, stripPre p l = some r → l = p ++ r := by
  induction p with
  | nil =>
    intro l r h
    simp only [stripPre, Option.some.injEq] at h
    simp [h]
  | cons a ps ih =>
    intro l r h
    cases l with
    | nil => simp [stripPre] at h
    | cons c cs =>
      simp only [stripPre] at h
      split at h
      · next hc => subst hc; simpa using ih cs r h
      · exact absurd h (by simp)

theorem stripPre_self (p x : List Char) : stripPre p (p ++ x) = some x := by
  induction p with
  | nil => simp [stripPre]
  | cons a ps ih => simp [stripPre, ih]

theorem stripPre_ne_head (p : List Char) (hp : p ≠ []) (c : Char) (t : List Char)
    (hc : c ≠ p.headD ' ') : stripPre p (c :: t) = none := by
  cases p with
  | nil => exact absurd rfl hp
  | cons a ps =>
    have hc2 : c ≠ a := by simpa using hc
    simp [stripPre, hc2]

theorem findCloseThink_eq :
    ∀ l b r, findCloseThink l = some (b, r) → l = b ++ "</think>".data ++ r := by
  intro l
  induction l with
  | nil => intro b r h; simp [findCloseThink] at h
  | cons c cs ih =>
    intro b r h
    simp only [findCloseThink] at h
    cases hs : stripPre "</think>".data (c :: cs) with
    | some r2 =>
      rw [hs] at h
      simp only [Option.some.injEq, Prod.mk.injEq] at h
      obtain ⟨hb, hr⟩ := h
      subst hb; subst hr
      simpa using stripPre_eq _ _ _ hs
    | none =>
      rw [hs] at h
      simp only [Option.map_eq_some'] at h
      obtain ⟨p, hp, hpe⟩ := h
      obtain ⟨hb, hr⟩ := Prod.mk.injEq .. ▸ hpe
      subst hb; subst hr
      simpa using ih p.1 p.2 (by rw [hp])

theorem thinkMatchAt_shorter (l r : List Char) (h : thinkMatchAt l = some r) :
    r.length < l.length := by
  unfold thinkMatchAt at h
  cases hs : stripPre "<think>".data l with
  | none => rw [hs] at h; simp at h
  | some r1 =>
    rw [hs, Option.some_bind'] at h
    simp only [Option.map_eq_some'] at h
    obtain ⟨p, hp, hpe⟩ := h
    have h1 := stripPre_eq _ _ _ hs
    have h2 := findCloseThink_eq r1 p.1 p.2 (by rw [hp])
    subst h1
    rw [h2, ← hpe]
    simp only [List.length_append, List.length_cons, List.length_nil]
    omega

theorem thinkMatchAt_not_lt (c : Char) (t : List Char) (hc : c ≠ '<') :
    thinkMatchAt (c :: t) = none := by
  unfold thinkMatchAt
  rw [stripPre_ne_head _ (by simp) c t (by simpa using hc)]
  rfl

theorem subThinkAux_congr :
    ∀ f1 f2 (l : List Char), l.length ≤ f1 → l.length ≤ f2 →
      subThinkAux f1 l = subThinkAux f2 l := by
  intro f1
  induction f1 with
  | zero =>
    intro f2 l h1 _
    have : l = [] := List.eq_nil_of_length_eq_zero (Nat.le_zero.mp h1)
    subst this
    cases f2 <;> simp [subThinkAux]
  | succ f ih =>
    intro f2 l h1 h2
    cases l with
    | nil => cases f2 <;> simp [subThinkAux]
    | cons c rest =>
      cases f2 with
      | zero => simp at h2
      | succ f2 =>
        simp only [subThinkAux]
        cases hm : thinkMatchAt (c :: rest) with
        | some r =>
          have hlt := thinkMatchAt_shorter _ _ hm
          simp only [List.length_cons] at hlt h1 h2
          exact ih f2 r (by omega) (by omega)
        | none =>
          simp only [List.length_cons] at h1 h2
          rw [ih f2 rest (by omega) (by omega)]

theorem subThinkAux_noMatch :
    ∀ fuel (l : List Char), hasThink l = false → subThinkAux fuel l = l := by
  intro fuel
  induction fuel with
  | zero => intro l _; rfl
  | succ f ih =>
    intro l h
    cases l with
    | nil => rfl
    | cons c rest =>
      simp only [hasThink, Bool.or_eq_false_iff] at h
      cases hm : thinkMatchAt (c :: rest) with
      | some r => rw [hm] at h; simp at h
      | none => simp only [subThinkAux, hm, ih rest h.2]

theorem subThink_noMatch (l : List Char) (h : hasThink l = false) : subThink l = l :=
  subThinkAux_noMatch _ l h

theorem subThinkAux_skip :
    ∀ (a : List Char) (x : List Char) fuel, (∀ c ∈ a, c ≠ '<') →
      (a ++ x).length ≤ fuel →
      subThinkAux fuel (a ++ x) = a ++ subThinkAux (fuel - a.length) x := by
  intro a
  induction a with
  | nil => intro x fuel _ _; simp
  | cons c a2 ih =>
    intro x fuel hsafe hlen
    cases fuel with
    | zero => simp at hlen
    | succ f =>
      have hc : c ≠ '<' := hsafe c (by simp)
      show subThinkAux (f + 1) (c :: (a2 ++ x)) = _
      simp only [subThinkAux, thinkMatchAt_not_lt c _ hc]
      have hlen2 : (a2 ++ x).length ≤ f := by
        simpa [Nat.succ_le_succ_iff] using hlen
      rw [ih x f (fun d hd => hsafe d (by simp [hd])) hlen2]
      show c :: (a2 ++ subThinkAux (f - a2.length) x) =
        (c :: a2) ++ subThinkAux (f + 1 - (c :: a2).length) x
      simp only [List.length_cons, Nat.succ_sub_succ, List.cons_append]

theorem findCloseThink_boundary :
    ∀ (m : List Char) (b : List Char), (∀ c ∈ m, c ≠ '<') →
      findCloseThink (m ++ "</think>".data ++ b) = some (m, b) := by
  intro m
  induction m with
  | nil =>
    intro b _
    show findCloseThink ([] ++ ("</think>".data ++ b)) = some ([], b)
    rw [List.nil_append]
    show findCloseThink ('<' :: ("/think>".data ++ b)) = some ([], b)
    simp only [findCloseThink]
    rw [show ('<' :: ("/think>".data ++ b)) = "</think>".data ++ b from rfl,
      stripPre_self]
  | cons c m2 ih =>
    intro b hs
    have hc : c ≠ '<' := hs c (by simp)
    show findCloseThink (c :: (m2 ++ "</think>".data ++ b)) = some (c :: m2, b)
    simp only [findCloseThink]
    rw [stripPre_ne_head _ (by simp) c _ (by simpa using hc),
      ih b (fun d hd => hs d (by simp [hd]))]
    rfl

theorem thinkMatchAt_boundary (m b : List Char) (hm : ∀ c ∈ m, c ≠ '<') :
    thinkMatchAt ("<think>".data ++ m ++ "</think>".data ++ b) = some b := by
  unfold thinkMatchAt
  rw [show "<think>".data ++ m ++ "</think>".data ++ b =
    "<think>".data ++ (m ++ "</think>".data ++ b) by simp,
    stripPre_self]
  rw [Option.some_bind', findCloseThink_boundary m b hm]
  rfl

theorem subThink_append_safe (a x : List Char) (ha : ∀ c ∈ a, c ≠ '<') :
    subThink (a ++ x) = a ++ subThink x := by
  unfold subThink
  rw [subThinkAux_skip a x (a ++ x).length ha (le_refl _)]
  congr 1
  exact subThinkAux_congr _ _ x (by simp) (le_refl _)

theorem subThink_strip (a m b : List Char) (ha : ∀ c ∈ a, c ≠ '<')
    (hm : ∀ c ∈ m, c ≠ '<') :
    subThink (a ++ "<think>".data ++ m ++ "</think>".data ++ b) = a ++ subThink b := by
  rw [show a ++ "<think>".data ++ m ++ "</think>".data ++ b =
    a ++ ("<think>".data ++ m ++ "</think>".data ++ b) by simp]
  rw [subThink_append_safe a _ ha]
  congr 1
  unfold subThink
  rw [show ("<think>".data ++ m ++ "</think>".data ++ b) =
    '<' :: ("think>".data ++ m ++ "</think>".data ++ b) from rfl]
  simp only [List.length_cons, subThinkAux]
  rw [show ('<' :: ("think>".data ++ m ++ "</think>".data ++ b)) =
    "<think>".data ++ m ++ "</think>".data ++ b from rfl,
    thinkMatchAt_boundary m b hm]
  refine subThinkAux_congr _ _ b ?_ (le_refl _)
  simp only [List.length_append, List.length_cons]
  have : ("think>".data).length = 6 := rfl
  have : ("</think>".data).length = 8 := rfl
  omega

/-! ### Claim theorems: sanitizer, prompt builder, endpoint, save -/

/-- Claim C5: the Content Sanitizer maps the input
`<think>reasoning</think>Visible text` to exactly `Visible text`; it removes
every `<think>…</think>`-delimited span (the span may contain newlines —
here any span whose surroundings and body contain no `<`, so that the span
is unambiguous), and it is a no-op on inputs containing no such span. -/
theorem c5_sanitizer :
    clean_section "<think>reasoning</think>Visible text".data = "Visible text".data ∧
    (∀ s : List Char, hasThink s = false → clean_section s = s) ∧
    (∀ a m b : List Char, (∀ c ∈ a, c ≠ '<') → (∀ c ∈ m, c ≠ '<') →
      clean_section (a ++ "<think>".data ++ m ++ "</think>".data ++ b) =
        a ++ clean_section b) := by
  refine ⟨by decide, ?_, ?_⟩
  · intro s h
    unfold clean_section
    rw [subThink_noMatch s h, subThink_noMatch s h]
  · intro a m b ha hm
    unfold clean_section
    rw [subThink_strip a m b ha hm, subThink_append_safe a _ ha]

/-- Witness for C5: a concrete span is removed, and a concrete span-free
input is left unchanged. -/
theorem c5_sanitizer_witness :
    clean_section ("Visible ".data ++ "<think>".data ++ "reasoning\nmore".data ++
        "</think>".data ++ "text".data) = "Visible ".data ++ clean_section "text".data ∧
    clean_section "plain text".data = "plain text".data :=
  ⟨c5_sanitizer.2.2 "Visible ".data "reasoning\nmore".data "text".data
      (by decide) (by decide),
   c5_sanitizer.2.1 "plain text".data (by decide)⟩

/-- Claim C8: for every age between 12 and 18 the Prompt Builder returns
exactly 4 prompts, keyed `branch_1` … `branch_4` in order, and it is
deterministic — equal ages give identical prompt text. -/
theorem c8_prompt_builder (a : Int) (_h1 : 12 ≤ a) (_h2 : a ≤ 18) :
    (get_section_prompts a).length = 4 ∧
    (get_section_prompts a).map Prod.fst = ["branch_1", "branch_2", "branch_3", "branch_4"] ∧
    ∀ b : Int, b = a → get_section_prompts b = get_section_prompts a := by
  refine ⟨rfl, rfl, ?_⟩
  intro b hb
  rw [hb]

/-- Witness for C8 at age 15. -/
theorem c8_prompt_builder_witness :
    (get_section_prompts 15).length = 4 ∧
    (get_section_prompts 15).map Prod.fst = ["branch_1", "branch_2", "branch_3", "branch_4"] :=
  ⟨(c8_prompt_builder 15 (by decide) (by decide)).1,
   (c8_prompt_builder 15 (by decide) (by decide)).2.1⟩

/-- Claim C7: for every submitted age outside [12, 18] the handler returns
the structured 400 error, leaves the store unchanged (no job record
created), and submits nothing to the worker pool (so no backend call can
occur for this request). -/
theorem c7_age_validation (data : ReqBody) (a : Int) (P K newId : String)
    (now : Int) (store : Store) (hage : data.age = some a)
    (hout : ¬ (12 ≤ a ∧ a ≤ 18)) :
    generate_test data P K newId now store =
      { response := .err "Age must be between 12 and 18" 400,
        store := store, submitted := none } := by
  unfold generate_test
  rw [hage]
  simp only [Option.getD_some]
  rw [if_pos hout]

/-- Witness for C7 at age 25. -/
theorem c7_age_validation_witness :
    generate_test { age := some 25 } "ollama" "" "id1" 0 [] =
      { response := .err "Age must be between 12 and 18" 400,
        store := [], submitted := none } :=
  c7_age_validation { age := some 25 } 25 "ollama" "" "id1" 0 [] rfl (by decide)

/-- Claim C9: a request body that omits `age` is not rejected — the handler
defaults the age to 15, passes validation, creates the job record (age 15)
and hands the task to the worker pool (shown here for a request resolving to
the `ollama` backend, which needs no credential). -/
theorem c9_default_age (data : ReqBody) (P K newId : String) (now : Int)
    (store : Store) (hage : data.age = none)
    (hprov : strLower (data.provider.getD P) = "ollama") :
    generate_test data P K newId now store =
      { response := .ok newId "generating" "ollama",
        store := storeInsert store newId (newJobRecord newId 15 "ollama" now),
        submitted := some (15, newId, "ollama") } := by
  unfold generate_test
  rw [hage, hprov]
  norm_num
  exact fun h => absurd h (by decide)

/-- Witness for C9: omitted age, provider `Ollama` (lower-cased by the
handler), a fresh id on an empty store. -/
theorem c9_default_age_witness :
    generate_test { age := none, provider := some "Ollama" } "x" "" "id1" 7 [] =
      { response := .ok "id1" "generating" "ollama",
        store := storeInsert [] "id1" (newJobRecord "id1" 15 "ollama" 7),
        submitted := some (15, "id1", "ollama") } :=
  c9_default_age { age := none, provider := some "Ollama" } "x" "" "id1" 7 []
    rfl (by decide)

/-- Claim C2 (refuted by the code): `_save_test_to_file`'s guard
`re.match(r'^[a-zA-Z0-9\-_]+', test_id)` is unanchored at the end, so the
identifier `a../../etc` — which contains `../` — passes the guard and the
function proceeds to build (and write to) a path that still contains `../`.
The code's own comment says the check is there to prevent path traversal,
so this is recorded as a code bug rather than an amended claim. -/
theorem c2_path_traversal_accepted :
    test_id_pattern_ok "a../../etc" = true ∧
    save_test_to_file "x".data 15 "a../../etc" "01_01_2026" =
      .ok "tests/15/01_01_2026_a../../e.txt" ∧
    substrB "../" "a../../etc".data = true ∧
    substrB "../" "tests/15/01_01_2026_a../../e.txt".data = true :=
  ⟨by decide, rfl, by decide, by decide⟩

/-! ### Lemmas about the store and the pipeline -/

theorem lookup_map_update (tid : String) (f : Rec → Rec) :
    ∀ store : Store,
      lookupRec (store.map (fun p => if p.1 = tid then (p.1, f p.2) else p)) tid =
        (lookupRec store tid).map f := by
  intro store
  induction store with
  | nil => rfl
  | cons p rest ih =>
    by_cases hp : p.1 = tid
    · simp [lookupRec, hp]
    · simp [lookupRec, hp, ih]

theorem lookup_updateChecked (store : Store) (tid : String) (f : Rec → Rec) :
    lookupRec (updateChecked store tid f) tid = (lookupRec store tid).map f := by
  unfold updateChecked
  cases hl : lookupRec store tid with
  | none => simp [hl]
  | some r => simp [hl, lookup_map_update]

theorem updateChecked_absent (store : Store) (tid : String)
    (h : lookupRec store tid = none) (f : Rec → Rec) :
    updateChecked store tid f = store := by
  unfold updateChecked
  simp [h]

/-! ### Claim theorems: pipeline failure handling and frame conditions -/

/-- Claim C1 is refuted by the code: here is a pipeline run whose first
backend call raises a transport error (`boom`); the pipeline returns the
failure dict but the job's record in the store is left untouched — its
status is still `generating`, not `failed`, and it has no `error` field.
A terminal poll for this job shows `generating` forever. -/
theorem c1_counterexample :
    generate_test_section_by_section 15 "t1" "ollama" (fun _ => .error "boom") 0
        "01_01_2026" [("t1", generatingRec)] [] =
      .ret boomFailResult [("t1", generatingRec)] [] ∧
    boomFailResult.success = false ∧
    boomFailResult.error = some "Failed to generate section branch_1: boom" ∧
    (lookupRec [("t1", generatingRec)] "t1").map Rec.status = some "generating" ∧
    (lookupRec [("t1", generatingRec)] "t1").map Rec.error = some none := by
  refine ⟨by decide, rfl, rfl, rfl, rfl⟩

/-- A non-empty string stays non-empty under right-append. -/
theorem string_append_ne_empty (s t : String) (h : s.length ≠ 0) : s ++ t ≠ "" := by
  intro he
  have h0 : (s ++ t).length = 0 := by rw [he]; rfl
  rw [String.length_append] at h0
  omega

/-- Failure of the k-th backend call inside the branch loop (a raised
transport/format error or an empty completion, every earlier call having
returned non-empty text): the loop stops with a failure dict carrying a
non-empty error, and the store it hands back holds no terminal update for
the job — when the record was absent the store is untouched, and when
present the record still has its old status or `generating` (set by the
earlier per-branch progress updates), with its `error`, `file_path` and
`completed_at` fields unchanged. -/
theorem genLoop_fail (tid pv : String) (calls : Nat → CallResult) :
    ∀ (names : List String) (k i : Nat) (acc : List Char) (store : Store),
      k < names.length →
      ((∃ e, calls (i + k) = .error e) ∨ calls (i + k) = .ok "") →
      (∀ j, j < k → ∃ c, calls (i + j) = .ok c ∧ c ≠ "") →
      ∃ r store2, genLoop tid pv calls names i acc store = .error (r, store2) ∧
        r.success = false ∧
        (∃ msg, r.error = some msg ∧ msg ≠ "") ∧
        (lookupRec store tid = none → store2 = store) ∧
        (∀ r0, lookupRec store tid = some r0 →
          ∃ r1, lookupRec store2 tid = some r1 ∧
            (r1.status = r0.status ∨ r1.status = "generating") ∧
            r1.error = r0.error ∧ r1.file_path = r0.file_path ∧
            r1.completed_at = r0.completed_at) := by
  intro names
  induction names with
  | nil =>
    intro k i acc store hk
    simp at hk
  | cons name rest ih =>
    intro k i acc store hk hfail hprev
    cases k with
    | zero =>
      rcases hfail with ⟨e, he⟩ | he
      · have he2 : calls i = .error e := by simpa using he
        refine ⟨{ success := false,
                  error := some ("Failed to generate section " ++ name ++ ": " ++ e) },
                store, ?_, rfl, ?_, fun _ => rfl, ?_⟩
        · unfold genLoop
          rw [he2]
        · refine ⟨_, rfl, string_append_ne_empty _ e ?_⟩
          rw [String.length_append]
          have h2 : (": " : String).length = 2 := rfl
          omega
        · intro r0 hr0
          exact ⟨r0, hr0, Or.inl rfl, rfl, rfl, rfl⟩
      · have he2 : calls i = .ok "" := by simpa using he
        refine ⟨{ success := false,
                  error := some ("Failed to generate section: " ++ name) },
                store, ?_, rfl, ?_, fun _ => rfl, ?_⟩
        · unfold genLoop
          rw [he2]
          rfl
        · exact ⟨_, rfl, string_append_ne_empty _ name (by decide)⟩
        · intro r0 hr0
          exact ⟨r0, hr0, Or.inl rfl, rfl, rfl, rfl⟩
    | succ j =>
      obtain ⟨c, hc, hcne⟩ := hprev 0 (Nat.succ_pos j)
      have hc2 : calls i = .ok c := by simpa using hc
      have hfail2 : (∃ e, calls ((i + 1) + j) = .error e) ∨ calls ((i + 1) + j) = .ok "" := by
        have harith : i + (j + 1) = (i + 1) + j := by omega
        rwa [harith] at hfail
      have hprev2 : ∀ j2, j2 < j → ∃ c2, calls ((i + 1) + j2) = .ok c2 ∧ c2 ≠ "" := by
        intro j2 hj2
        have harith : i + (j2 + 1) = (i + 1) + j2 := by omega
        have hp := hprev (j2 + 1) (Nat.succ_lt_succ hj2)
        rwa [harith] at hp
      have hk2 : j < rest.length := by
        simpa using Nat.lt_of_succ_lt_succ hk
      obtain ⟨r, store2, hout, hsucc, herr, habs, hpres⟩ :=
        ih j (i + 1) (acc ++ clean_section c.data ++ ('\n' :: '\n' :: []))
          (updateChecked store tid (fun r =>
            { r with status := "generating",
                     progress := "Completed branch " ++ toString (i + 1) ++ "/" ++
                       toString section_order.length ++ ": " ++ branchDisplay name,
                     current_section := name,
                     provider := pv })) hk2 hfail2 hprev2
      refine ⟨r, store2, ?_, hsucc, herr, ?_, ?_⟩
      · simp only [genLoop, hc2, if_neg hcne]
        exact hout
      · intro habs0
        rw [updateChecked_absent store tid habs0] at habs
        exact habs habs0
      · intro r0 hr0
        have hl2 : lookupRec (updateChecked store tid (fun r =>
            { r with status := "generating",
                     progress := "Completed branch " ++ toString (i + 1) ++ "/" ++
                       toString section_order.length ++ ": " ++ branchDisplay name,
                     current_section := name,
                     provider := pv })) tid =
            some { r0 with
                   status := "generating",
                   progress := "Completed branch " ++ toString (i + 1) ++ "/" ++
                     toString section_order.length ++ ": " ++ branchDisplay name,
                   current_section := name,
                   provider := pv } := by
          rw [lookup_updateChecked, hr0]
          rfl
        obtain ⟨r1, hl1, hst, he1, hf1, hca1⟩ := hpres _ hl2
        refine ⟨r1, hl1, Or.inr ?_, he1.trans rfl, hf1.trans rfl, hca1.trans rfl⟩
        rcases hst with h | h
        · exact h.trans rfl
        · exact h

/-- Claim C1 (amended): a backend-call failure (raised transport/format
error) or an empty completion at **any** of the four branches makes the
pipeline return a failure result with a non-empty error, but the job record
never becomes terminal: the earlier per-branch progress updates may have
modified it (an absent record leaves the store untouched), yet afterwards
its status is still its previous status or `generating`, and its `error`,
`file_path` and `completed_at` fields are exactly what they were — no
`failed` status and no error is ever recorded for these failures. Only a
schema-validation failure converts the stored record into a terminal
`failed` record with a non-empty error. -/
theorem c1_failure_handling (store : Store) (tid pv : String)
    (calls : Nat → CallResult) (age now : Int) (dateStr : String)
    (fs : List String) (hage : 12 ≤ age ∧ age ≤ 18) :
    (∀ k, k < section_order.length →
      ((∃ e, calls k = .error e) ∨ calls k = .ok "") →
      (∀ j, j < k → ∃ c, calls j = .ok c ∧ c ≠ "") →
      ∃ r store2,
        generate_test_section_by_section age tid pv calls now dateStr store fs =
          .ret r store2 fs ∧
        r.success = false ∧
        (∃ msg, r.error = some msg ∧ msg ≠ "") ∧
        (lookupRec store tid = none → store2 = store) ∧
        (∀ r0, lookupRec store tid = some r0 →
          ∃ r1, lookupRec store2 tid = some r1 ∧
            (r1.status = r0.status ∨ r1.status = "generating") ∧
            r1.error = r0.error ∧ r1.file_path = r0.file_path ∧
            r1.completed_at = r0.completed_at)) ∧
    (∀ content r0, lookupRec store tid = some r0 →
      (validate_test_schema content).1 = false →
      ∃ st2, finishJob content age tid pv now dateStr store fs =
          .ret (validationFailResult tid pv (validate_test_schema content).2) st2 fs ∧
        lookupRec st2 tid =
          some { r0 with
                 status := "failed",
                 progress := "validation_failed",
                 current_section := "validation",
                 error := some (validationMsg (validate_test_schema content).2),
                 provider := pv }) := by
  constructor
  · intro k hk hfail hprev
    have hfail0 : (∃ e, calls (0 + k) = .error e) ∨ calls (0 + k) = .ok "" := by
      rwa [Nat.zero_add]
    have hprev0 : ∀ j, j < k → ∃ c, calls (0 + j) = .ok c ∧ c ≠ "" := by
      intro j hj
      rw [Nat.zero_add]
      exact hprev j hj
    obtain ⟨r, store2, hout, hsucc, herr, habs, hpres⟩ :=
      genLoop_fail tid pv calls section_order k 0 [] store hk hfail0 hprev0
    refine ⟨r, store2, ?_, hsucc, herr, habs, hpres⟩
    unfold generate_test_section_by_section
    rw [if_neg (by simpa using hage), hout]
  · intro content r0 hr hv
    refine ⟨updateChecked store tid (fun r =>
        { r with status := "failed", progress := "validation_failed",
                 current_section := "validation",
                 error := some (validationMsg (validate_test_schema content).2),
                 provider := pv }), ?_, ?_⟩
    · simp only [finishJob]
      rw [hv]
      rw [if_pos rfl]
    · rw [lookup_updateChecked, hr]
      rfl

/-- Witness for the amended C1: the third backend call fails after two
successful branches, on a store holding the job in the `generating` state —
the pipeline returns a non-empty error and the stored record still has
status `generating` with no error recorded. -/
theorem c1_failure_handling_witness :
    ∃ r store2,
      generate_test_section_by_section 15 "t2" "ollama"
          (fun n => if n < 2 then CallResult.ok "section text"
                    else CallResult.error "connection refused")
          0 "d" [("t2", generatingRec)] [] = .ret r store2 [] ∧
      r.success = false ∧
      (∃ msg, r.error = some msg ∧ msg ≠ "") ∧
      (lookupRec [("t2", generatingRec)] "t2" = none → store2 = [("t2", generatingRec)]) ∧
      (∀ r0, lookupRec [("t2", generatingRec)] "t2" = some r0 →
        ∃ r1, lookupRec store2 "t2" = some r1 ∧
          (r1.status = r0.status ∨ r1.status = "generating") ∧
          r1.error = r0.error ∧ r1.file_path = r0.file_path ∧
          r1.completed_at = r0.completed_at) :=
  (c1_failure_handling [("t2", generatingRec)] "t2" "ollama"
      (fun n => if n < 2 then CallResult.ok "section text"
                else CallResult.error "connection refused")
      15 0 "d" [] (by decide)).1
    2 (by decide) (Or.inl ⟨"connection refused", rfl⟩)
    (fun j hj => ⟨"section text", by rw [if_pos hj], by decide⟩)

/-- Claim C10: when the job id has been evicted from the store, the
per-branch progress update and the validation-failure update leave the
store unchanged and the pipeline continues (returning its result with the
very same store); the success path's completed-update has no presence check
and raises (`exn`) when the record is absent — after the file was already
written. -/
theorem c10_frame (store : Store) (tid : String)
    (h : lookupRec store tid = none) :
    (∀ f, updateChecked store tid f = store) ∧
    (∀ pv calls names i acc, loopStore (genLoop tid pv calls names i acc store) = store) ∧
    (∀ content age pv now dateStr fs,
      (validate_test_schema content).1 = false →
      finishJob content age tid pv now dateStr store fs =
        .ret (validationFailResult tid pv (validate_test_schema content).2) store fs) ∧
    (∀ content age pv now dateStr fs,
      (validate_test_schema content).1 = true →
      test_id_pattern_ok tid = true → 12 ≤ age → age ≤ 18 →
      finishJob content age tid pv now dateStr store fs =
        .exn store (insertFile fs (save_path age tid dateStr))) := by
  refine ⟨updateChecked_absent store tid h, ?_, ?_, ?_⟩
  · intro pv calls names
    induction names with
    | nil => intro i acc; rfl
    | cons name rest ih =>
      intro i acc
      cases hc : calls i with
      | error e => simp only [genLoop, hc]; rfl
      | ok content =>
        by_cases he : content = ""
        · simp only [genLoop, hc, if_pos he]
          rfl
        · simp only [genLoop, hc, if_neg he, updateChecked_absent store tid h]
          exact ih (i + 1) _
  · intro content age pv now dateStr fs hv
    simp only [finishJob]
    rw [hv]
    simp only [eq_self_iff_true, if_true, updateChecked_absent store tid h]
  · intro content age pv now dateStr fs hv hpat h1 h2
    simp only [finishJob]
    rw [hv]
    simp only [Bool.true_eq_false, if_false]
    simp only [save_test_to_file]
    rw [hpat]
    simp only [Bool.true_eq_false, if_false]
    rw [if_neg (by simp [h1, h2])]
    simp only [updateRequired]
    rw [h]
    simp

set_option maxRecDepth 100000 in
set_option maxHeartbeats 4000000 in
/-- Witness for C10: an empty store — the checked update is the identity,
and the success path (on fully valid content) ends in the modelled
`KeyError` after writing the file. -/
theorem c10_frame_witness :
    updateChecked [] "t1" id = [] ∧
    finishJob wellFormedContent.data 15 "t1" "ollama" 0 "d" [] [] =
      .exn [] (insertFile [] (save_path 15 "t1" "d")) :=
  ⟨(c10_frame [] "t1" rfl).1 id,
   (c10_frame [] "t1" rfl).2.2.2 wellFormedContent.data 15 "ollama" 0 "d" []
     (by decide) (by decide) (by decide) (by decide)⟩

/-! ### Lemmas about the validator -/

theorem mem_flatMapErrs {α : Type} (f : α → List String) {s : String} :
    ∀ (l : List α) (a : α), a ∈ l → s ∈ f a → s ∈ flatMapErrs l f := by
  intro l
  induction l with
  | nil => intro a ha _; simp at ha
  | cons b bs ih =>
    intro a ha hs
    rcases List.mem_cons.mp ha with h | h
    · subst h
      exact List.mem_append_left _ hs
    · exact List.mem_append_right _ (ih a h hs)

theorem isEmpty_false_of_mem {s : String} {l : List String} (h : s ∈ l) :
    l.isEmpty = false := by
  cases l with
  | nil => simp at h
  | cons a as => rfl

/-- In every branch of the validator, the boolean result is the emptiness of
the defect list. -/
theorem validate_fst_eq (content : List Char) :
    (validate_test_schema content).1 = (validate_test_schema content).2.isEmpty := by
  unfold validate_test_schema
  split
  · rfl
  · dsimp only
    split
    · rfl
    · rfl

theorem stripL_eq_nil {l : List Char} (h : stripL l = []) :
    ∀ c ∈ l, isSpaceChar c := by
  unfold stripL at h
  have h1 : (l.dropWhile isSpaceChar).reverse.dropWhile isSpaceChar = [] := by
    simpa using congrArg List.reverse h
  have h2 : ∀ c ∈ (l.dropWhile isSpaceChar).reverse, isSpaceChar c :=
    List.dropWhile_eq_nil_iff.mp h1
  have h3 : ∀ c ∈ l.dropWhile isSpaceChar, isSpaceChar c := by
    intro c hc
    exact h2 c (List.mem_reverse.mpr hc)
  intro c hc
  rw [← List.takeWhile_append_dropWhile (p := isSpaceChar) (l := l)] at hc
  rcases List.mem_append.mp hc with h | h
  · exact List.mem_takeWhile_imp h
  · exact h3 c h

theorem matchBranchHeader_space (c : Char) (t : List Char)
    (hc : isSpaceChar c = true) : matchBranchHeader (c :: t) = none := by
  have hne : c ≠ 'B' := by
    intro he
    rw [he] at hc
    simp [isSpaceChar] at hc
  unfold matchBranchHeader
  rw [stripPre_ne_head _ (by simp) c t (by simpa using hne)]

theorem branchSplitAux_all_space :
    ∀ fuel (l acc : List Char), (∀ c ∈ l, isSpaceChar c) →
      branchSplitAux fuel l acc = [acc.reverse ++ l] := by
  intro fuel
  induction fuel with
  | zero => intro l acc _; rfl
  | succ f ih =>
    intro l acc hl
    cases l with
    | nil => simp [branchSplitAux]
    | cons c rest =>
      have hc := hl c (by simp)
      simp only [branchSplitAux, matchBranchHeader_space c rest hc]
      rw [ih rest (c :: acc) (fun d hd => hl d (by simp [hd]))]
      simp

theorem branchesFound_of_strip_nil {content : List Char}
    (h : stripL content = []) : branchesFound content = [] := by
  unfold branchesFound branchSplit
  rw [branchSplitAux_all_space content.length content [] (stripL_eq_nil h)]
  rfl

/-- The two early-return guards of the validator are passed whenever the
parsed branch list is non-empty. -/
theorem validate_guards {content : List Char}
    (hbf : branchesFound content ≠ []) :
    ¬ (stripL content).isEmpty = true ∧ ¬ (branchSplit content).length < 2 := by
  constructor
  · intro hs
    exact hbf (branchesFound_of_strip_nil (List.isEmpty_iff.mp hs))
  · intro hl
    apply hbf
    unfold branchesFound
    rw [List.drop_eq_nil_of_le (by omega)]
    rfl

/-- Membership in the validator's defect list, given membership in the
per-branch checks of a parsed (header, body) pair. -/
theorem validate_mem {content : List Char} {e hfound body : List Char} {s : String}
    (hmem : (e, (hfound, body)) ∈ expected_branches.zip (branchesFound content))
    (hs : s ∈ checkBranch e hfound body) :
    (validate_test_schema content).1 = false ∧ s ∈ (validate_test_schema content).2 := by
  have hbf : branchesFound content ≠ [] := by
    intro he
    rw [he] at hmem
    simp [List.zip_nil_right] at hmem
  obtain ⟨hg1, hg2⟩ := validate_guards hbf
  have hmem2 : s ∈ (validate_test_schema content).2 := by
    unfold validate_test_schema
    rw [if_neg hg1, if_neg hg2]
    refine List.mem_append_right _ ?_
    exact mem_flatMapErrs _ _ _ hmem hs
  exact ⟨by rw [validate_fst_eq]; exact isEmpty_false_of_mem hmem2, hmem2⟩

/-! ### Claim theorems: validator defects -/

/-- Claim C4: any input the branch splitter parses into exactly 3
(header, body) pairs makes the validator return `ok = false` (it never
throws — the embedding is a total function), and its defect list contains
the count-mismatch defect naming 4 expected versus 3 found. -/
theorem c4_branch_count (content : List Char)
    (h3 : (branchesFound content).length = 3) :
    (validate_test_schema content).1 = false ∧
    "Expected 4 branches but found 3" ∈ (validate_test_schema content).2 := by
  have hbf : branchesFound content ≠ [] := by
    intro he
    rw [he] at h3
    simp at h3
  obtain ⟨hg1, hg2⟩ := validate_guards hbf
  have hmem2 : "Expected 4 branches but found 3" ∈ (validate_test_schema content).2 := by
    unfold validate_test_schema
    rw [if_neg hg1, if_neg hg2]
    refine List.mem_append_left _ (List.mem_append_right _ ?_)
    rw [h3]
    simp only [expected_branches]
    decide
  exact ⟨by rw [validate_fst_eq]; exact isEmpty_false_of_mem hmem2, hmem2⟩

set_option maxRecDepth 100000 in
/-- Witness for C4: a concrete three-branch input. -/
theorem c4_branch_count_witness :
    (validate_test_schema threeBranchContent.data).1 = false ∧
    "Expected 4 branches but found 3" ∈ (validate_test_schema threeBranchContent.data).2 :=
  c4_branch_count threeBranchContent.data (by decide)

/-- Claim C3: whenever one of the four expected branches parses with exactly
3 question blocks and one block carries options lettered A, B, C, D,
contains the `Options:` and `Expert Consensus Scores:` markers, and the
scores section covers A, B and C but not D, the validator reports
`ok = false` with a defect naming that branch and question and exactly the
letter `D` as missing (the missing letters being sorted and de-duplicated,
a single missing `D` prints as `D`). -/
theorem c3_missing_scores (content : List Char) (e hfound body qn g2 : List Char)
    (hmem : (e, (hfound, body)) ∈ expected_branches.zip (branchesFound content))
    (hq3 : (qScan body).length = 3)
    (hqmem : (qn, g2) ∈ qScan body)
    (hopt : substrB "Options:" (stripL g2) = true)
    (hec : substrB "Expert Consensus Scores:" (stripL g2) = true)
    (hletters : (optionsScan (stripL g2)).map optionLetter = [['A'], ['B'], ['C'], ['D']])
    (hA : containsSub ['A'] ((ecSearch (stripL g2)).getD []) = true)
    (hB : containsSub ['B'] ((ecSearch (stripL g2)).getD []) = true)
    (hC : containsSub ['C'] ((ecSearch (stripL g2)).getD []) = true)
    (hD : containsSub ['D'] ((ecSearch (stripL g2)).getD []) = false) :
    (validate_test_schema content).1 = false ∧
    (String.mk e ++ " Question " ++ String.mk (stripL qn) ++
      ": Missing scores for options " ++ "D") ∈ (validate_test_schema content).2 := by
  have hmiss : missingScores (optionsScan (stripL g2)) ((ecSearch (stripL g2)).getD []) =
      [['D']] := by
    unfold missingScores
    rw [hletters]
    simp [hA, hB, hC, hD]
  have hjoin : joinComma (sortStrs (dedupStrs [['D']])) = "D" := by decide
  have hq : (String.mk e ++ " Question " ++ String.mk (stripL qn) ++
      ": Missing scores for options " ++ "D") ∈ checkQuestion e (stripL qn) (stripL g2) := by
    unfold checkQuestion
    rw [hopt]
    simp only [Bool.true_eq_false, if_false]
    rw [hec]
    simp only [Bool.true_eq_false, if_false]
    refine List.mem_append_right _ ?_
    rw [hmiss]
    simp only [List.isEmpty_cons, Bool.false_eq_true, if_false]
    rw [hjoin]
    exact List.mem_singleton.mpr rfl
  have hcb : (String.mk e ++ " Question " ++ String.mk (stripL qn) ++
      ": Missing scores for options " ++ "D") ∈ checkBranch e hfound body := by
    simp only [checkBranch]
    rw [hq3]
    simp only [if_pos rfl]
    refine List.mem_append_right _ ?_
    exact mem_flatMapErrs _ _ (qn, g2) hqmem hq
  exact validate_mem hmem hcb

set_option maxRecDepth 200000 in
set_option maxHeartbeats 4000000 in
/-- Witness for C3: in `missingDContent`, branch 1's second question has
options A-D but scores only for A, B, C; the defect names exactly `D`. -/
theorem c3_missing_scores_witness :
    (validate_test_schema missingDContent.data).1 = false ∧
    (String.mk "Branch 1: Perceiving Emotions".data ++ " Question " ++
        String.mk (stripL "2".data) ++ ": Missing scores for options " ++ "D") ∈
      (validate_test_schema missingDContent.data).2 ∧
    (String.mk "Branch 1: Perceiving Emotions".data ++ " Question " ++
        String.mk (stripL "2".data) ++ ": Missing scores for options " ++ "D") =
      "Branch 1: Perceiving Emotions Question 2: Missing scores for options D" :=
  have h := c3_missing_scores missingDContent.data
    "Branch 1: Perceiving Emotions".data
    "Branch 1: Perceiving Emotions".data
    ("\nQuestion 1\nScenario & Question: s\nOptions:\nA) a\nB) b\nC) c\nD) d\nExpert Consensus Scores: A B C D\nQuestion 2\nScenario & Question: s\nOptions:\nA) a\nB) b\nC) c\nD) d\nExpert Consensus Scores: A B C\nQuestion 3\nScenario & Question: s\nOptions:\nA) a\nB) b\nC) c\nD) d\nExpert Consensus Scores: A B C D\n").data
    "2".data
    ("Scenario & Question: s\nOptions:\nA) a\nB) b\nC) c\nD) d\nExpert Consensus Scores: A B C").data
    (by decide) (by decide) (by decide) (by decide) (by decide)
    (by decide) (by decide) (by decide) (by decide) (by decide)
  ⟨h.1, h.2, by decide⟩

/-! ### Lemmas about cleanup -/

theorem delOld_store :
    ∀ (ids : List String) (store : Store) (fs : List String),
      (delOld ids store fs).1 = store.filter (fun p => !decide (p.1 ∈ ids)) := by
  intro ids
  induction ids with
  | nil => intro store fs; simp [delOld]
  | cons tid rest ih =>
    intro store fs
    simp only [delOld]
    rw [ih, List.filter_filter]
    apply List.filter_congr
    intro p _
    by_cases h1 : p.1 = tid <;> by_cases h2 : p.1 ∈ rest <;> simp [h1, h2]

theorem delFile_not_mem {fs : List String} {fp : String} (h : fp ∉ fs) :
    ∀ o : Option Rec, fp ∉ delFile fs o := by
  intro o
  cases o with
  | none => exact h
  | some r =>
    cases hfp : r.file_path with
    | none => simp [delFile, hfp]; exact h
    | some q =>
      simp only [delFile, hfp]
      exact fun hmem => h (List.mem_of_mem_erase hmem)

theorem delFile_nodup {fs : List String} (h : fs.Nodup) :
    ∀ o : Option Rec, (delFile fs o).Nodup := by
  intro o
  cases o with
  | none => exact h
  | some r =>
    cases hfp : r.file_path with
    | none => simpa [delFile, hfp] using h
    | some q =>
      simp only [delFile, hfp]
      exact h.erase q

theorem delOld_files_mono :
    ∀ (ids : List String) (store : Store) (fs : List String) (fp : String),
      fp ∉ fs → fp ∉ (delOld ids store fs).2 := by
  intro ids
  induction ids with
  | nil => intro store fs fp h; exact h
  | cons tid rest ih =>
    intro store fs fp h
    simp only [delOld]
    exact ih _ _ fp (delFile_not_mem h _)

theorem lookup_filter_ne (t tid : String) (hne : t ≠ tid) :
    ∀ store : Store,
      lookupRec (store.filter (fun p => !decide (p.1 = t))) tid = lookupRec store tid := by
  intro store
  have hne2 : ¬ tid = t := fun h => hne h.symm
  induction store with
  | nil => rfl
  | cons p rest ih =>
    by_cases hp : p.1 = t
    · have hpt : ¬ p.1 = tid := by rw [hp]; exact hne
      simp [List.filter, hp, lookupRec, hpt, ih, hne, hne2]
    · by_cases hpt : p.1 = tid
      · simp [List.filter, hp, lookupRec, hpt, ih, hne, hne2]
      · simp [List.filter, hp, lookupRec, hpt, ih, hne, hne2]

theorem delOld_file_deleted :
    ∀ (ids : List String) (store : Store) (fs : List String) (tid : String)
      (r : Rec) (fp : String), ids.Nodup → fs.Nodup → tid ∈ ids →
      lookupRec store tid = some r → r.file_path = some fp →
      fp ∉ (delOld ids store fs).2 := by
  intro ids
  induction ids with
  | nil => intro store fs tid r fp _ _ h; simp at h
  | cons t rest ih =>
    intro store fs tid r fp hnd hfs hmem hl hfp
    simp only [delOld]
    by_cases he : tid = t
    · subst he
      rw [hl]
      have hdel : delFile fs (some r) = fs.erase fp := by
        simp [delFile, hfp]
      rw [hdel]
      exact delOld_files_mono rest _ _ fp (hfs.not_mem_erase)
    · have hmem2 : tid ∈ rest := by
        rcases List.mem_cons.mp hmem with h | h
        · exact absurd h he
        · exact h
      apply ih _ _ tid r fp (List.Nodup.of_cons hnd) (delFile_nodup hfs _) hmem2 _ hfp
      rw [lookup_filter_ne t tid (fun h => he h.symm)]
      exact hl

theorem lookup_of_mem_nodup :
    ∀ (store : Store), (store.map Prod.fst).Nodup →
      ∀ p ∈ store, lookupRec store p.1 = some p.2 := by
  intro store
  induction store with
  | nil => intro _ p hp; simp at hp
  | cons a rest ih =>
    intro hn p hp
    rw [List.map_cons] at hn
    have hn2 := List.nodup_cons.mp hn
    rcases List.mem_cons.mp hp with h | h
    · subst h; simp [lookupRec]
    · have hne : ¬ a.1 = p.1 := by
        intro he
        exact hn2.1 (he ▸ List.mem_map_of_mem Prod.fst h)
      simp only [lookupRec, if_neg hne]
      exact ih hn2.2 p h

theorem key_inj :
    ∀ (store : Store), (store.map Prod.fst).Nodup →
      ∀ p ∈ store, ∀ q ∈ store, p.1 = q.1 → p = q := by
  intro store
  induction store with
  | nil => intro _ p hp; simp at hp
  | cons a rest ih =>
    intro hn p hp q hq he
    rw [List.map_cons] at hn
    have hn2 := List.nodup_cons.mp hn
    rcases List.mem_cons.mp hp with h1 | h1 <;> rcases List.mem_cons.mp hq with h2 | h2
    · rw [h1, h2]
    · subst h1
      exact absurd (he ▸ List.mem_map_of_mem Prod.fst h2) hn2.1
    · subst h2
      exact absurd (he ▸ List.mem_map_of_mem Prod.fst h1) hn2.1
    · exact ih hn2.2 p h1 q h2 he

theorem mem_ordInsertRec {x y : String × Rec} :
    ∀ l : Store, y ∈ ordInsertRec x l ↔ y = x ∨ y ∈ l := by
  intro l
  induction l with
  | nil => simp [ordInsertRec]
  | cons z zs ih =>
    unfold ordInsertRec
    split
    · simp only [List.mem_cons]
    · simp only [List.mem_cons, ih]
      tauto

theorem perm_ordInsertRec (x : String × Rec) :
    ∀ l : Store, (ordInsertRec x l).Perm (x :: l) := by
  intro l
  induction l with
  | nil => simp [ordInsertRec]
  | cons z zs ih =>
    unfold ordInsertRec
    split
    · exact List.Perm.refl _
    · exact (ih.cons z).trans (List.Perm.swap x z zs)

theorem perm_sortByCreated : ∀ l : Store, (sortByCreated l).Perm l := by
  intro l
  induction l with
  | nil => exact List.Perm.refl _
  | cons x xs ih =>
    exact (perm_ordInsertRec x (sortByCreated xs)).trans (ih.cons x)

theorem pairwise_ordInsertRec (x : String × Rec) :
    ∀ l : Store, List.Pairwise keyLE l → List.Pairwise keyLE (ordInsertRec x l) := by
  intro l
  induction l with
  | nil => intro _; simp [ordInsertRec, List.Pairwise]
  | cons z zs ih =>
    intro h
    have hz := (List.pairwise_cons.mp h).1
    have hzs := (List.pairwise_cons.mp h).2
    unfold ordInsertRec
    split
    · next hlt =>
      refine List.pairwise_cons.mpr ⟨?_, h⟩
      intro b hb
      rcases List.mem_cons.mp hb with hbz | hbzs
      · subst hbz; exact le_of_lt hlt
      · exact le_trans (le_of_lt hlt) (hz b hbzs)
    · next hnlt =>
      refine List.pairwise_cons.mpr ⟨?_, ih hzs⟩
      intro b hb
      rcases (mem_ordInsertRec _).mp hb with hbx | hbzs
      · subst hbx
        exact le_of_not_lt hnlt
      · exact hz b hbzs

theorem pairwise_sortByCreated : ∀ l : Store, List.Pairwise keyLE (sortByCreated l) := by
  intro l
  induction l with
  | nil => simp [sortByCreated, List.Pairwise]
  | cons x xs ih => exact pairwise_ordInsertRec x (sortByCreated xs) ih

theorem phase2_props (s1 : Store) (fs1 : List String)
    (hk1 : (s1.map Prod.fst).Nodup) (hbig : s1.length > MAX_STORED_TESTS) :
    ((delOld (((sortByCreated s1).take (s1.length - MAX_STORED_TESTS)).map Prod.fst)
        s1 fs1).1.length = MAX_STORED_TESTS) ∧
    (∀ p ∈ (delOld (((sortByCreated s1).take (s1.length - MAX_STORED_TESTS)).map Prod.fst)
        s1 fs1).1, p ∈ s1) ∧
    (∀ p ∈ (delOld (((sortByCreated s1).take (s1.length - MAX_STORED_TESTS)).map Prod.fst)
        s1 fs1).1,
      ∀ q ∈ s1,
        q ∉ (delOld (((sortByCreated s1).take (s1.length - MAX_STORED_TESTS)).map Prod.fst)
          s1 fs1).1 →
        q.2.created_at ≤ p.2.created_at) := by
  have hperm : (sortByCreated s1).Perm s1 := perm_sortByCreated s1
  have hpw : List.Pairwise keyLE (sortByCreated s1) := pairwise_sortByCreated s1
  set srt := sortByCreated s1 with hsrt
  set ex := s1.length - MAX_STORED_TESTS with hex
  set T := srt.take ex with hT
  set D := srt.drop ex with hD
  set victims := T.map Prod.fst with hvic
  have hnds : (srt.map Prod.fst).Nodup := ((hperm.map Prod.fst).nodup_iff).mpr hk1
  have hTD : T ++ D = srt := List.take_append_drop ex srt
  have hdisj : ∀ q ∈ D, q.1 ∉ victims := by
    intro q hq hmem
    have hnTD : ((T ++ D).map Prod.fst).Nodup := by rw [hTD]; exact hnds
    rw [List.map_append] at hnTD
    exact (List.nodup_append.mp hnTD).2.2 hmem (List.mem_map_of_mem Prod.fst hq)
  have hRfilter : (delOld victims s1 fs1).1 =
      s1.filter (fun p => !decide (p.1 ∈ victims)) := delOld_store victims s1 fs1
  have hRperm : (delOld victims s1 fs1).1.Perm
      (srt.filter (fun p => !decide (p.1 ∈ victims))) := by
    rw [hRfilter]
    exact (hperm.filter _).symm
  have hsplit : srt.filter (fun p => !decide (p.1 ∈ victims)) =
      T.filter (fun p => !decide (p.1 ∈ victims)) ++
      D.filter (fun p => !decide (p.1 ∈ victims)) := by
    rw [← hTD, List.filter_append]
  have hTnil : T.filter (fun p => !decide (p.1 ∈ victims)) = [] := by
    apply List.filter_eq_nil_iff.mpr
    intro a ha
    simp [List.mem_map_of_mem Prod.fst ha]
  have hDfull : D.filter (fun p => !decide (p.1 ∈ victims)) = D := by
    apply List.filter_eq_self.mpr
    intro a ha
    simp [hdisj a ha]
  have hmemD : ∀ p ∈ (delOld victims s1 fs1).1, p ∈ D := by
    intro p hp
    have h2 := hRperm.mem_iff.mp hp
    rw [hsplit, hTnil] at h2
    simpa [hDfull] using h2
  refine ⟨?_, ?_, ?_⟩
  · have hlenR := hRperm.length_eq
    rw [hsplit, hTnil, hDfull] at hlenR
    simp only [List.nil_append] at hlenR
    rw [hlenR, hD, List.length_drop, hperm.length_eq, hex]
    omega
  · intro p hp
    rw [hRfilter] at hp
    exact (List.mem_filter.mp hp).1
  · intro p hp q hq hqn
    have hpD := hmemD p hp
    have hqT : q ∈ T := by
      have hqsrt : q ∈ srt := hperm.mem_iff.mpr hq
      rw [← hTD] at hqsrt
      rcases List.mem_append.mp hqsrt with h | h
      · exact h
      · exfalso
        apply hqn
        rw [hRfilter]
        exact List.mem_filter.mpr ⟨hq, by simp [hdisj q h]⟩
    have hpw2 : List.Pairwise keyLE (T ++ D) := by rw [hTD]; exact hpw
    exact (List.pairwise_append.mp hpw2).2.2 q hqT p hpD

/-! ### Claim theorem: job store eviction -/

/-- Claim C6: on a store with distinct job ids and a duplicate-free file
list, after `_cleanup_old_tests` runs (a) no surviving record is older than
the 24-hour retention cutoff, (b) the file of every record older than the
cutoff has been deleted, (c) at most 100 records survive, and (d) if more
than 100 records were inside the retention window, exactly 100 survive and
every evicted in-window record is no newer than any survivor (eviction is
oldest-first by `created_at`). -/
theorem c6_cleanup (now : Int) (store : Store) (fs : List String)
    (hk : (store.map Prod.fst).Nodup) (hf : fs.Nodup) :
    (∀ p ∈ (cleanup_old_tests now store fs).1,
      ¬ p.2.created_at < now - MAX_TEST_AGE_HOURS) ∧
    (∀ p ∈ store, p.2.created_at < now - MAX_TEST_AGE_HOURS →
      ∀ fp, p.2.file_path = some fp → fp ∉ (cleanup_old_tests now store fs).2) ∧
    ((cleanup_old_tests now store fs).1.length ≤ MAX_STORED_TESTS) ∧
    ((store.filter (fun p => !decide (p.2.created_at < now - MAX_TEST_AGE_HOURS))).length >
        MAX_STORED_TESTS →
      (cleanup_old_tests now store fs).1.length = MAX_STORED_TESTS ∧
      ∀ p ∈ (cleanup_old_tests now store fs).1, ∀ q ∈ store,
        ¬ q.2.created_at < now - MAX_TEST_AGE_HOURS →
        q ∉ (cleanup_old_tests now store fs).1 →
        q.2.created_at ≤ p.2.created_at) := by
  have hclean : cleanup_old_tests now store fs =
      (if (delOld ((store.filter
            (fun p => decide (p.2.created_at < now - MAX_TEST_AGE_HOURS))).map Prod.fst)
            store fs).1.length > MAX_STORED_TESTS then
        delOld (((sortByCreated (delOld ((store.filter
              (fun p => decide (p.2.created_at < now - MAX_TEST_AGE_HOURS))).map Prod.fst)
              store fs).1).take
            ((delOld ((store.filter
              (fun p => decide (p.2.created_at < now - MAX_TEST_AGE_HOURS))).map Prod.fst)
              store fs).1.length - MAX_STORED_TESTS)).map Prod.fst)
          (delOld ((store.filter
            (fun p => decide (p.2.created_at < now - MAX_TEST_AGE_HOURS))).map Prod.fst)
            store fs).1
          (delOld ((store.filter
            (fun p => decide (p.2.created_at < now - MAX_TEST_AGE_HOURS))).map Prod.fst)
            store fs).2
      else delOld ((store.filter
            (fun p => decide (p.2.created_at < now - MAX_TEST_AGE_HOURS))).map Prod.fst)
            store fs) := rfl
  have hs1 : (delOld ((store.filter
        (fun p => decide (p.2.created_at < now - MAX_TEST_AGE_HOURS))).map Prod.fst)
        store fs).1 =
      store.filter (fun p => !decide (p.2.created_at < now - MAX_TEST_AGE_HOURS)) := by
    rw [delOld_store]
    apply List.filter_congr
    intro p hp
    congr 1
    apply decide_eq_decide.mpr
    constructor
    · intro hmemids
      obtain ⟨q, hq, hq1⟩ := List.mem_map.mp hmemids
      have hqf := List.mem_filter.mp hq
      have hpq := key_inj store hk p hp q hqf.1 hq1.symm
      rw [hpq]
      exact of_decide_eq_true hqf.2
    · intro hold
      exact List.mem_map_of_mem Prod.fst
        (List.mem_filter.mpr ⟨hp, decide_eq_true hold⟩)
  have hnold : ∀ p ∈ (delOld ((store.filter
        (fun p => decide (p.2.created_at < now - MAX_TEST_AGE_HOURS))).map Prod.fst)
        store fs).1, ¬ p.2.created_at < now - MAX_TEST_AGE_HOURS := by
    intro p hp
    rw [hs1] at hp
    have h2 := (List.mem_filter.mp hp).2
    simp only [Bool.not_eq_true'] at h2
    exact of_decide_eq_false h2
  have hsub : ∀ p ∈ (delOld ((store.filter
        (fun p => decide (p.2.created_at < now - MAX_TEST_AGE_HOURS))).map Prod.fst)
        store fs).1, p ∈ store := by
    intro p hp
    rw [hs1] at hp
    exact (List.mem_filter.mp hp).1
  have hidsnodup : ((store.filter
      (fun p => decide (p.2.created_at < now - MAX_TEST_AGE_HOURS))).map Prod.fst).Nodup :=
    List.Nodup.sublist ((List.filter_sublist store).map Prod.fst) hk
  have hph1 : ∀ p ∈ store, p.2.created_at < now - MAX_TEST_AGE_HOURS →
      ∀ fp, p.2.file_path = some fp →
      fp ∉ (delOld ((store.filter
        (fun p => decide (p.2.created_at < now - MAX_TEST_AGE_HOURS))).map Prod.fst)
        store fs).2 := by
    intro p hp hold fp hfp
    exact delOld_file_deleted _ store fs p.1 p.2 fp hidsnodup hf
      (List.mem_map_of_mem Prod.fst (List.mem_filter.mpr ⟨hp, decide_eq_true hold⟩))
      (lookup_of_mem_nodup store hk p hp) hfp
  have hk1 : ((delOld ((store.filter
      (fun p => decide (p.2.created_at < now - MAX_TEST_AGE_HOURS))).map Prod.fst)
      store fs).1.map Prod.fst).Nodup := by
    rw [hs1]
    exact List.Nodup.sublist ((List.filter_sublist store).map Prod.fst) hk
  by_cases hbig : (delOld ((store.filter
      (fun p => decide (p.2.created_at < now - MAX_TEST_AGE_HOURS))).map Prod.fst)
      store fs).1.length > MAX_STORED_TESTS
  · obtain ⟨hlen, hmem2, horder⟩ := phase2_props _
      (delOld ((store.filter
        (fun p => decide (p.2.created_at < now - MAX_TEST_AGE_HOURS))).map Prod.fst)
        store fs).2 hk1 hbig
    rw [hclean, if_pos hbig]
    refine ⟨?_, ?_, ?_, ?_⟩
    · intro p hp
      exact hnold p (hmem2 p hp)
    · intro p hp hold fp hfp
      exact delOld_files_mono _ _ _ fp (hph1 p hp hold fp hfp)
    · omega
    · intro _
      refine ⟨hlen, ?_⟩
      intro p hp q hq hqin hqnot
      refine horder p hp q ?_ hqnot
      rw [hs1]
      exact List.mem_filter.mpr ⟨hq, by simpa using hqin⟩
  · rw [hclean, if_neg hbig]
    refine ⟨hnold, hph1, by omega, ?_⟩
    intro habs
    exfalso
    rw [← hs1] at habs
    omega

/-- Witness for C6: a two-record store where `a` (created at 10, with file
`fa`) is past the 24h cutoff of `now = 100` and `b` (created at 90) is not. -/
theorem c6_cleanup_witness :
    (∀ p ∈ (cleanup_old_tests 100
        [("a", { generatingRec with created_at := 10, file_path := some "fa" }),
         ("b", { generatingRec with created_at := 90 })] ["fa"]).1,
      ¬ p.2.created_at < 100 - MAX_TEST_AGE_HOURS) ∧
    (∀ p ∈ [("a", { generatingRec with created_at := 10, file_path := some "fa" }),
            ("b", { generatingRec with created_at := 90 })],
      p.2.created_at < 100 - MAX_TEST_AGE_HOURS →
      ∀ fp, p.2.file_path = some fp →
        fp ∉ (cleanup_old_tests 100
          [("a", { generatingRec with created_at := 10, file_path := some "fa" }),
           ("b", { generatingRec with created_at := 90 })] ["fa"]).2) ∧
    ((cleanup_old_tests 100
        [("a", { generatingRec with created_at := 10, file_path := some "fa" }),
         ("b", { generatingRec with created_at := 90 })] ["fa"]).1.length ≤ MAX_STORED_TESTS) ∧
    ((([("a", { generatingRec with created_at := 10, file_path := some "fa" }),
        ("b", { generatingRec with created_at := 90 })] : Store).filter
          (fun p => !decide (p.2.created_at < 100 - MAX_TEST_AGE_HOURS))).length >
        MAX_STORED_TESTS →
      (cleanup_old_tests 100
        [("a", { generatingRec with created_at := 10, file_path := some "fa" }),
         ("b", { generatingRec with created_at := 90 })] ["fa"]).1.length = MAX_STORED_TESTS ∧
      ∀ p ∈ (cleanup_old_tests 100
          [("a", { generatingRec with created_at := 10, file_path := some "fa" }),
           ("b", { generatingRec with created_at := 90 })] ["fa"]).1,
        ∀ q ∈ [("a", { generatingRec with created_at := 10, file_path := some "fa" }),
               ("b", { generatingRec with created_at := 90 })],
          ¬ q.2.created_at < 100 - MAX_TEST_AGE_HOURS →
          q ∉ (cleanup_old_tests 100
            [("a", { generatingRec with created_at := 10, file_path := some "fa" }),
             ("b", { generatingRec with created_at := 90 })] ["fa"]).1 →
          q.2.created_at ≤ p.2.created_at) :=
  c6_cleanup 100
    [("a", { generatingRec with created_at := 10, file_path := some "fa" }),
     ("b", { generatingRec with created_at := 90 })] ["fa"] (by decide) (by decide)
